import Mathlib

/-!
Verification development for the NSQL front end (lexer, parser error
machinery, AST binary codec, metadata classifier, error reporter).

The definitions below are a shallow embedding of the C sources:
machine integers are modelled as `Nat` with explicit truncation
(`% 2 ^ w`) where the C code stores into a fixed-width field, byte
buffers are `List Nat` (each element a byte value), C strings are
`List Nat` of their bytes (no NUL byte), and nullable pointers are
`Option`.  Allocation failure paths of the C code (which only lead to
`NULL`/`false` returns) are not modelled: every theorem is stated
"assuming no allocation failure".
-/

namespace NSQL

/-- Bytes of a C string (values in `(0, 256)`; a C string cannot contain
the NUL byte). -/
abbrev Str := List Nat

/-- A byte value as stored in a buffer. -/
def byteOK (b : Nat) : Prop := b < 256

/-- Bytes of a C string: nonzero (no embedded NUL) and below 256. -/
def strByteOK (b : Nat) : Prop := 0 < b ∧ b < 256

def strOK (s : Str) : Prop := ∀ b ∈ s, strByteOK b

-- Format constants from ast_serializer.h
def AST_HEADER_SIZE : Nat := 28
def AST_MAGIC_NUMBER : Nat := 0x4E52514C
def AST_VERSION : Nat := 0x0001

-- Engine types from ast_serializer.h
def ENGINE_AUTO : Nat := 0x00
def ENGINE_SQL : Nat := 0x01
def ENGINE_NOSQL : Nat := 0x02

-- Execution hint flags from ast_serializer.h
def HINT_PARALLEL_EXEC : Nat := 0x0001
def HINT_INDEX_SCAN : Nat := 0x0002
def HINT_FULL_SCAN : Nat := 0x0003
def HINT_CACHE_RESULT : Nat := 0x0004
def HINT_PRIORITY_HIGH : Nat := 0x0010
def HINT_PRIORITY_LOW : Nat := 0x0020
def HINT_READ_ONLY : Nat := 0x0040

/-- ExecutionMetadata (ast_serializer.h).  Field widths of the C struct:
`hint_flags : uint16_t`, `priority : uint8_t`, `engine_type : uint8_t`,
`estimated_rows : uint32_t`, `timeout_ms : uint32_t`,
`target_index : const char*` (nullable). -/
structure ExecutionMetadata where
  hint_flags : Nat
  priority : Nat
  engine_type : Nat
  estimated_rows : Nat
  timeout_ms : Nat
  target_index : Option Str
deriving DecidableEq, Repr

/-- Well-formedness: each field fits the width of its C struct field. -/
def ExecutionMetadata.WF (m : ExecutionMetadata) : Prop :=
  m.hint_flags < 2 ^ 16 ∧ m.priority < 2 ^ 8 ∧ m.engine_type < 2 ^ 8 ∧
    m.estimated_rows < 2 ^ 32 ∧ m.timeout_ms < 2 ^ 32 ∧
    (∀ s, m.target_index = some s → strOK s)

-- ===== Little-endian fixed-width writers (write_uint8/16/32, write_double) =====
-- The C writers memcpy the value's bytes; storing a wider value into a
-- fixed-width parameter truncates mod 2^w, which the `% 256` digits below
-- reproduce exactly.

def write_uint8 (v : Nat) : List Nat := [v % 256]

def write_uint16 (v : Nat) : List Nat := [v % 256, v / 256 % 256]

def write_uint32 (v : Nat) : List Nat :=
  [v % 256, v / 256 % 256, v / 2 ^ 16 % 256, v / 2 ^ 24 % 256]

/-- write_int32 stores the two's-complement bit pattern of the int32. -/
def write_int32 (v : Int) : List Nat := write_uint32 (v % (2 : Int) ^ 32).toNat

/-- write_double stores the 8 bytes of the IEEE-754 value; the bit pattern
is carried abstractly as a `Nat` below `2 ^ 64`. -/
def write_double (bits : Nat) : List Nat :=
  [bits % 256, bits / 256 % 256, bits / 2 ^ 16 % 256, bits / 2 ^ 24 % 256,
   bits / 2 ^ 32 % 256, bits / 2 ^ 40 % 256, bits / 2 ^ 48 % 256, bits / 2 ^ 56 % 256]

-- ===== Little-endian readers (the header/trailer loads in the C code) =====

def readU8 (d : List Nat) (p : Nat) : Nat := d.getD p 0

def readU16 (d : List Nat) (p : Nat) : Nat := readU8 d p + 256 * readU8 d (p + 1)

def readU32 (d : List Nat) (p : Nat) : Nat :=
  readU8 d p + 256 * readU8 d (p + 1) + 2 ^ 16 * readU8 d (p + 2) + 2 ^ 24 * readU8 d (p + 3)

-- ===== CRC32 (make_crc32_table / calculate_crc32) =====

/-- One inner iteration of make_crc32_table:
`c = (c & 1) ? 0xEDB88320 ^ (c >> 1) : (c >> 1)`. -/
def crcStep1 (c : Nat) : Nat :=
  if c &&& 1 = 1 then 0xEDB88320 ^^^ (c >>> 1) else c >>> 1

/-- crc32_table entry `n`: eight iterations of `crcStep1` on `n`
(the C code memoises these 256 values in a lazily built array). -/
def crc32_table (n : Nat) : Nat :=
  crcStep1 (crcStep1 (crcStep1 (crcStep1 (crcStep1 (crcStep1 (crcStep1 (crcStep1 n)))))))

/-- One step of the calculate_crc32 loop:
`c = crc32_table[(c ^ buf[n]) & 0xFF] ^ (c >> 8)`. -/
def crc32Update (c b : Nat) : Nat :=
  crc32_table ((c ^^^ b) &&& 0xFF) ^^^ (c >>> 8)

/-- calculate_crc32: fold the table step over the bytes, with initial and
final XOR `0xFFFFFFFF`. -/
def calculate_crc32 (d : List Nat) : Nat :=
  (d.foldl crc32Update 0xFFFFFFFF) ^^^ 0xFFFFFFFF

-- ===== The AST (ast.h), restricted to the variants the codec supports =====

/-- NsqlTokenType (nsql/lexer.h), in declaration order. -/
inductive NsqlTokenType where
  | TOKEN_ASK | TOKEN_TELL | TOKEN_FIND | TOKEN_SHOW | TOKEN_GET
  | TOKEN_FOR | TOKEN_FROM | TOKEN_TO | TOKEN_IF | TOKEN_WHEN
  | TOKEN_WHERE | TOKEN_THAT | TOKEN_GROUP | TOKEN_SORT | TOKEN_BY
  | TOKEN_LIMIT | TOKEN_AND | TOKEN_OR | TOKEN_HAVING | TOKEN_ORDER
  | TOKEN_ADD | TOKEN_REMOVE | TOKEN_UPDATE | TOKEN_CREATE | TOKEN_WITH
  | TOKEN_AS | TOKEN_IN | TOKEN_NOT | TOKEN_WHICH
  | TOKEN_PLUS | TOKEN_MINUS | TOKEN_STAR | TOKEN_SLASH | TOKEN_PERCENT
  | TOKEN_EQUAL | TOKEN_GT | TOKEN_LT | TOKEN_GTE | TOKEN_LTE | TOKEN_NEQ
  | TOKEN_LIKE
  | TOKEN_IDENTIFIER | TOKEN_STRING | TOKEN_INTEGER | TOKEN_DECIMAL
  | TOKEN_COMMA | TOKEN_LPAREN | TOKEN_RPAREN | TOKEN_EOF | TOKEN_ERROR
  | TOKEN_TERMINATOR
deriving DecidableEq, Repr

open NsqlTokenType

/-- Numeric value of the C enum constant (declaration order, from 0). -/
def NsqlTokenType.toNat : NsqlTokenType → Nat
  | TOKEN_ASK => 0 | TOKEN_TELL => 1 | TOKEN_FIND => 2 | TOKEN_SHOW => 3
  | TOKEN_GET => 4 | TOKEN_FOR => 5 | TOKEN_FROM => 6 | TOKEN_TO => 7
  | TOKEN_IF => 8 | TOKEN_WHEN => 9 | TOKEN_WHERE => 10 | TOKEN_THAT => 11
  | TOKEN_GROUP => 12 | TOKEN_SORT => 13 | TOKEN_BY => 14 | TOKEN_LIMIT => 15
  | TOKEN_AND => 16 | TOKEN_OR => 17 | TOKEN_HAVING => 18 | TOKEN_ORDER => 19
  | TOKEN_ADD => 20 | TOKEN_REMOVE => 21 | TOKEN_UPDATE => 22 | TOKEN_CREATE => 23
  | TOKEN_WITH => 24 | TOKEN_AS => 25 | TOKEN_IN => 26 | TOKEN_NOT => 27
  | TOKEN_WHICH => 28 | TOKEN_PLUS => 29 | TOKEN_MINUS => 30 | TOKEN_STAR => 31
  | TOKEN_SLASH => 32 | TOKEN_PERCENT => 33 | TOKEN_EQUAL => 34 | TOKEN_GT => 35
  | TOKEN_LT => 36 | TOKEN_GTE => 37 | TOKEN_LTE => 38 | TOKEN_NEQ => 39
  | TOKEN_LIKE => 40 | TOKEN_IDENTIFIER => 41 | TOKEN_STRING => 42
  | TOKEN_INTEGER => 43 | TOKEN_DECIMAL => 44 | TOKEN_COMMA => 45
  | TOKEN_LPAREN => 46 | TOKEN_RPAREN => 47 | TOKEN_EOF => 48 | TOKEN_ERROR => 49
  | TOKEN_TERMINATOR => 50

/-- ConstraintType (ast.h). -/
inductive ConstraintType where
  | CONSTRAINT_REQUIRED | CONSTRAINT_UNIQUE | CONSTRAINT_DEFAULT
deriving DecidableEq, Repr

def ConstraintType.toNat : ConstraintType → Nat
  | .CONSTRAINT_REQUIRED => 0 | .CONSTRAINT_UNIQUE => 1 | .CONSTRAINT_DEFAULT => 2

/-- Payload of a NODE_LITERAL, restricted to the literal_type values
serialize_literal supports (TOKEN_STRING / TOKEN_INTEGER / TOKEN_DECIMAL);
for the numeric kinds the `double` bit pattern is carried as a `Nat`. -/
inductive LiteralValue where
  | str (s : Option Str)
  | intLit (bits : Nat)
  | decLit (bits : Nat)
deriving DecidableEq, Repr

/-- AST nodes (ast.h), restricted to the variant tags serialize_node
supports (NODE_PROGRAM has no serialize_node case).  In the C struct a
NODE_SOURCE holds an identifier child node of which serialize_source
uses only the name string; the model stores that name directly. -/
inductive Node where
  | ask_query (source fields condition group_by order_by limit : Option Node) (line : Nat)
  | tell_query (source action condition : Option Node) (line : Nat)
  | find_query (source condition group_by order_by limit : Option Node) (line : Nat)
  | show_query (source fields condition group_by order_by limit : Option Node) (line : Nat)
  | get_query (source fields condition group_by order_by limit : Option Node) (line : Nat)
  | field_list (fields : List Node) (line : Nat)
  | source (identName : Option Str) (join : Option Node) (line : Nat)
  | join (source condition : Option Node) (line : Nat)
  | group_by (fields having : Option Node) (line : Nat)
  | order_by (items : List (Node × Bool)) (line : Nat)
  | limit (lim off : Int) (line : Nat)
  | binary_expr (op : NsqlTokenType) (left right : Option Node) (line : Nat)
  | unary_expr (op : NsqlTokenType) (operand : Option Node) (line : Nat)
  | identifier (name : Option Str) (line : Nat)
  | literal (value : LiteralValue) (line : Nat)
  | add_action (value record_spec : Option Node) (line : Nat)
  | remove_action (condition : Option Node) (line : Nat)
  | update_action (pairs : List (Node × Node)) (line : Nat)
  | create_action (field_defs : List Node) (line : Nat)
  | field_def (name : Option Node) (ftype : Option Str) (constraints : List Node) (line : Nat)
  | constraint (ctype : ConstraintType) (default_value : Option Node) (line : Nat)
  | function_call (name : Option Str) (args : List Node) (line : Nat)
  | error (message : Option Str) (line : Nat)

/-- Numeric value of the NodeType enum constant (ast.h declaration order). -/
def Node.tag : Node → Nat
  | .ask_query .. => 0 | .tell_query .. => 1 | .find_query .. => 2
  | .show_query .. => 3 | .get_query .. => 4 | .field_list .. => 5
  | .source .. => 6 | .join .. => 7 | .group_by .. => 8 | .order_by .. => 9
  | .limit .. => 10 | .add_action .. => 11 | .remove_action .. => 12
  | .update_action .. => 13 | .create_action .. => 14 | .binary_expr .. => 15
  | .unary_expr .. => 16 | .identifier .. => 17 | .literal .. => 18
  | .field_def .. => 19 | .constraint .. => 20 | .function_call .. => 21
  | .error .. => 22

-- ===== Serialization (ast_serializer.c) =====
-- Serialized output is a byte list paired with a Bool recording whether a
-- truncation warning was printed to stderr (the write_string side channel).

/-- Concatenate two (bytes, warned) serializer results. -/
def wcat (a b : List Nat × Bool) : List Nat × Bool := (a.1 ++ b.1, a.2 || b.2)

/-- write_string: u16 length prefix (longer strings are truncated to
65535 bytes with a warning printed to stderr), then the raw bytes;
a NULL string is written as a zero length. -/
def write_string : Option Str → List Nat × Bool
  | none => (write_uint16 0, false)
  | some s =>
    if s.length > 65535 then (write_uint16 65535 ++ s.take 65535, true)
    else (write_uint16 s.length ++ s, false)

mutual

/-- serialize_node: `0xFF` marker for a NULL child, otherwise
`[type_tag:u8][line:u32][variant payload]`. -/
def serialize_opt : Option Node → List Nat × Bool
  | none => (write_uint8 0xFF, false)
  | some n => serialize_node n

def serialize_node : Node → List Nat × Bool
  | .ask_query src fields cond gb ob lim line =>
    wcat (write_uint8 0 ++ write_uint32 line, false)
      (wcat (serialize_opt src) (wcat (serialize_opt fields) (wcat (serialize_opt cond)
        (wcat (serialize_opt gb) (wcat (serialize_opt ob) (serialize_opt lim))))))
  | .tell_query src action cond line =>
    wcat (write_uint8 1 ++ write_uint32 line, false)
      (wcat (serialize_opt src) (wcat (serialize_opt action) (serialize_opt cond)))
  | .find_query src cond gb ob lim line =>
    wcat (write_uint8 2 ++ write_uint32 line, false)
      (wcat (serialize_opt src) (wcat (serialize_opt cond)
        (wcat (serialize_opt gb) (wcat (serialize_opt ob) (serialize_opt lim)))))
  | .show_query src fields cond gb ob lim line =>
    wcat (write_uint8 3 ++ write_uint32 line, false)
      (wcat (serialize_opt src) (wcat (serialize_opt fields) (wcat (serialize_opt cond)
        (wcat (serialize_opt gb) (wcat (serialize_opt ob) (serialize_opt lim))))))
  | .get_query src fields cond gb ob lim line =>
    wcat (write_uint8 4 ++ write_uint32 line, false)
      (wcat (serialize_opt src) (wcat (serialize_opt fields) (wcat (serialize_opt cond)
        (wcat (serialize_opt gb) (wcat (serialize_opt ob) (serialize_opt lim))))))
  | .field_list fields line =>
    wcat (write_uint8 5 ++ write_uint32 line ++ write_uint16 fields.length, false)
      (serialize_nodes fields)
  | .source identName jn line =>
    wcat (write_uint8 6 ++ write_uint32 line, false)
      (wcat (write_string identName)
        (match jn with
         | some j => wcat (write_uint8 1, false) (serialize_node j)
         | none => (write_uint8 0, false)))
  | .join src cond line =>
    wcat (write_uint8 7 ++ write_uint32 line, false)
      (wcat (serialize_opt src) (serialize_opt cond))
  | .group_by fields having line =>
    wcat (write_uint8 8 ++ write_uint32 line, false)
      (wcat (serialize_opt fields) (serialize_opt having))
  | .order_by items line =>
    wcat (write_uint8 9 ++ write_uint32 line ++ write_uint16 items.length, false)
      (serialize_order items)
  | .limit lim off line =>
    (write_uint8 10 ++ write_uint32 line ++ write_int32 lim ++ write_int32 off, false)
  | .binary_expr op l r line =>
    wcat (write_uint8 15 ++ write_uint32 line ++ write_uint8 op.toNat, false)
      (wcat (serialize_opt l) (serialize_opt r))
  | .unary_expr op operand line =>
    wcat (write_uint8 16 ++ write_uint32 line ++ write_uint8 op.toNat, false)
      (serialize_opt operand)
  | .identifier name line =>
    wcat (write_uint8 17 ++ write_uint32 line, false) (write_string name)
  | .literal v line =>
    wcat (write_uint8 18 ++ write_uint32 line, false)
      (match v with
       | .str s => wcat (write_uint8 TOKEN_STRING.toNat, false) (write_string s)
       | .intLit bits => (write_uint8 TOKEN_INTEGER.toNat ++ write_double bits, false)
       | .decLit bits => (write_uint8 TOKEN_DECIMAL.toNat ++ write_double bits, false))
  | .add_action v rs line =>
    wcat (write_uint8 11 ++ write_uint32 line, false)
      (wcat (serialize_opt v) (serialize_opt rs))
  | .remove_action cond line =>
    wcat (write_uint8 12 ++ write_uint32 line, false) (serialize_opt cond)
  | .update_action pairs line =>
    wcat (write_uint8 13 ++ write_uint32 line ++ write_uint16 pairs.length, false)
      (serialize_pairs pairs)
  | .create_action fds line =>
    wcat (write_uint8 14 ++ write_uint32 line ++ write_uint16 fds.length, false)
      (serialize_nodes fds)
  | .field_def name ftype constraints line =>
    wcat (write_uint8 19 ++ write_uint32 line, false)
      (wcat (serialize_opt name)
        (wcat (write_string ftype)
          (wcat (write_uint16 constraints.length, false) (serialize_nodes constraints))))
  | .constraint ct dv line =>
    wcat (write_uint8 20 ++ write_uint32 line ++ write_uint8 ct.toNat, false)
      (serialize_opt dv)
  | .function_call name args line =>
    wcat (write_uint8 21 ++ write_uint32 line, false)
      (wcat (write_string name)
        (wcat (write_uint16 args.length, false) (serialize_nodes args)))
  | .error msg line =>
    wcat (write_uint8 22 ++ write_uint32 line, false) (write_string msg)

def serialize_nodes : List Node → List Nat × Bool
  | [] => ([], false)
  | n :: ns => wcat (serialize_node n) (serialize_nodes ns)

def serialize_order : List (Node × Bool) → List Nat × Bool
  | [] => ([], false)
  | (n, asc) :: ns =>
    wcat (serialize_node n) (wcat (write_uint8 (if asc then 1 else 0), false) (serialize_order ns))

def serialize_pairs : List (Node × Node) → List Nat × Bool
  | [] => ([], false)
  | (f, v) :: ns => wcat (serialize_node f) (wcat (serialize_node v) (serialize_pairs ns))

end

/-- serialize_metadata: the trailer `hint_flags:u16, priority:u8,
engine_type:u8, estimated_rows:u32, timeout_ms:u32, target_index:string`;
a NULL metadata pointer writes the documented defaults. -/
def serialize_metadata : Option ExecutionMetadata → List Nat × Bool
  | none =>
    (write_uint16 0 ++ write_uint8 128 ++ write_uint8 ENGINE_AUTO ++
      write_uint32 0 ++ write_uint32 30000 ++ write_uint16 0, false)
  | some m =>
    wcat (write_uint16 m.hint_flags ++ write_uint8 m.priority ++ write_uint8 m.engine_type ++
      write_uint32 m.estimated_rows ++ write_uint32 m.timeout_ms, false)
      (write_string m.target_index)

/-- SerializedAST (ast_serializer.c).  The invariant `size = data.length`
holds for every value built by the entry points below. -/
structure SerializedAST where
  data : List Nat
  size : Nat
  checksum : Nat
  is_valid : Bool
deriving DecidableEq, Repr

/-- ast_serialize on a non-NULL root, assuming no allocation failure:
body = node encoding ++ metadata trailer, preceded by the 28-byte header
`magic, version, reserved, data_size, original_size, checksum, reserved`
(all u32 little-endian).  The second component records whether a
truncation warning was printed. -/
def ast_serialize (node : Node) (metadata : Option ExecutionMetadata) :
    SerializedAST × Bool :=
  let body := wcat (serialize_node node) (serialize_metadata metadata)
  let checksum := calculate_crc32 body.1
  let data := write_uint32 AST_MAGIC_NUMBER ++ (write_uint32 AST_VERSION ++
    (write_uint32 0 ++ (write_uint32 body.1.length ++ (write_uint32 body.1.length ++
    (write_uint32 checksum ++ (write_uint32 0 ++ body.1))))))
  ({ data := data, size := data.length, checksum := checksum, is_valid := true }, body.2)

/-- ast_deserialize, assuming no allocation failure.  `none` models the
NULL return. -/
def ast_deserialize (data : List Nat) : Option SerializedAST :=
  if data.length < AST_HEADER_SIZE then none
  else
    let magic := readU32 data 0
    let version := readU32 data 4
    let data_size := readU32 data 12
    let stored_checksum := readU32 data 20
    if magic ≠ AST_MAGIC_NUMBER then none
    else if version > AST_VERSION then none
    else if data.length ≠ AST_HEADER_SIZE + data_size then none
    else
      let computed := calculate_crc32 ((data.drop AST_HEADER_SIZE).take data_size)
      some { data := data, size := data.length, checksum := computed,
             is_valid := computed == stored_checksum }

/-- ast_verify_checksum: recompute CRC32 over the stored data region and
compare with the stored header checksum. -/
def ast_verify_checksum (ast : SerializedAST) : Bool :=
  if ast.size < AST_HEADER_SIZE then false
  else
    let stored_checksum := readU32 ast.data 20
    let data_size := readU32 ast.data 12
    let computed := calculate_crc32 ((ast.data.drop AST_HEADER_SIZE).take data_size)
    computed == stored_checksum

/-- ast_extract_metadata: walk backward from the end of the data region
assuming the trailer's fixed field widths.  (The C code uses size_t
positions; on the buffers considered in the theorems below every
position stays in range, so truncated `Nat` subtraction agrees.) -/
def ast_extract_metadata (ast : SerializedAST) : Option ExecutionMetadata :=
  if ¬ ast.is_valid then none
  else
    let d := ast.data.drop AST_HEADER_SIZE
    let data_size := readU32 ast.data 12
    if data_size < 8 then none
    else
      let pos0 := data_size - 2
      let str_len := readU16 d pos0
      let pos1 := pos0 - str_len
      let target_index : Option Str :=
        if str_len > 0 then some ((d.drop pos1).take str_len) else none
      let pos2 := pos1 - 4
      let timeout_ms := readU32 d pos2
      let pos3 := pos2 - 4
      let estimated_rows := readU32 d pos3
      let pos4 := pos3 - 1
      let engine_type := readU8 d pos4
      let pos5 := pos4 - 1
      let priority := readU8 d pos5
      let pos6 := pos5 - 2
      let hint_flags := readU16 d pos6
      some { hint_flags := hint_flags, priority := priority, engine_type := engine_type,
             estimated_rows := estimated_rows, timeout_ms := timeout_ms,
             target_index := target_index }

/-- ast_is_nosql_query: FIND/SHOW/GET are NoSQL, everything else SQL. -/
def ast_is_nosql_query : Option Node → Bool
  | none => false
  | some n =>
    match n with
    | .find_query .. => true
    | .show_query .. => true
    | .get_query .. => true
    | .tell_query .. => false
    | .ask_query .. => false
    | _ => false

/-- ast_create_metadata: the rule-based classification table. -/
def ast_create_metadata (node : Option Node) : ExecutionMetadata :=
  let md0 : ExecutionMetadata :=
    { hint_flags := 0, priority := 128, engine_type := ENGINE_AUTO,
      estimated_rows := 0, timeout_ms := 30000, target_index := none }
  match node with
  | none => md0
  | some n =>
    if ast_is_nosql_query (some n) then
      let md := { md0 with
                  engine_type := ENGINE_NOSQL,
                  hint_flags := md0.hint_flags ||| (HINT_PARALLEL_EXEC ||| HINT_READ_ONLY),
                  priority := 128, timeout_ms := 10000 }
      match n with
      | .find_query .. =>
        { md with estimated_rows := 10000, hint_flags := md.hint_flags ||| HINT_FULL_SCAN }
      | .show_query .. =>
        { md with
          estimated_rows := 1000, hint_flags := md.hint_flags ||| HINT_CACHE_RESULT,
          priority := 96 }
      | .get_query .. =>
        { md with
          estimated_rows := 1000, hint_flags := md.hint_flags ||| HINT_CACHE_RESULT,
          priority := 96 }
      | _ => md
    else
      let md := { md0 with engine_type := ENGINE_SQL }
      match n with
      | .ask_query _ _ cond _ _ lim _ =>
        let md := { md with hint_flags := md.hint_flags ||| HINT_READ_ONLY, priority := 128 }
        let md :=
          if cond.isSome then
            { md with hint_flags := md.hint_flags ||| HINT_INDEX_SCAN, estimated_rows := 100 }
          else
            { md with hint_flags := md.hint_flags ||| HINT_FULL_SCAN, estimated_rows := 1000 }
        if lim.isSome then { md with hint_flags := md.hint_flags ||| HINT_CACHE_RESULT } else md
      | .tell_query .. =>
        { md with priority := 192, hint_flags := 0, estimated_rows := 1 }
      | _ => md

-- ===== Lexer (lexer.c) =====
-- The source is the byte list of a C string (so it contains no NUL byte);
-- reading at or past the end yields the terminating NUL, which
-- `List.getD _ _ 0` reproduces.  `start`/`current` are the two cursor
-- pointers, as offsets into the source.

structure Lexer where
  source : List Nat
  start : Nat
  current : Nat
  line : Nat
deriving DecidableEq, Repr

def lexer_init (source : List Nat) : Lexer :=
  { source := source, start := 0, current := 0, line := 1 }

/-- `*lexer->current == '\0'`. -/
def is_at_end (l : Lexer) : Bool := decide (l.source.length ≤ l.current)

def peek (l : Lexer) : Nat := l.source.getD l.current 0

def peek_next (l : Lexer) : Nat :=
  if is_at_end l then 0 else l.source.getD (l.current + 1) 0

def advanceL (l : Lexer) : Lexer := { l with current := l.current + 1 }

-- The C scanning loops are while loops; they are given explicit fuel so
-- the definitions stay executable by the kernel.  Every loop consumes at
-- least one source byte per iteration and stops at the end of the source,
-- so the fuel `source.length + 1` the entry points pass never runs out.

/-- Body of the `>>` comment case in skip_whitespace: consume until
newline or end of input. -/
def comment_loop : Nat → Lexer → Lexer
  | 0, l => l
  | fuel + 1, l =>
    if peek l ≠ 10 ∧ is_at_end l = false then comment_loop fuel (advanceL l) else l

/-- skip_whitespace: spaces, tabs, carriage returns, newlines (counting
lines), and `>>` line comments. -/
def skip_whitespace : Nat → Lexer → Lexer
  | 0, l => l
  | fuel + 1, l =>
    if peek l = 32 ∨ peek l = 13 ∨ peek l = 9 then skip_whitespace fuel (advanceL l)
    else if peek l = 10 then skip_whitespace fuel (advanceL { l with line := l.line + 1 })
    else if peek l = 62 ∧ peek_next l = 62 then
      skip_whitespace fuel (comment_loop fuel (advanceL (advanceL l)))
    else l

def is_alpha (c : Nat) : Bool :=
  decide ((97 ≤ c ∧ c ≤ 122) ∨ (65 ≤ c ∧ c ≤ 90) ∨ c = 95)

def isdigit (c : Nat) : Bool := decide (48 ≤ c ∧ c ≤ 57)

def is_alnum (c : Nat) : Bool := is_alpha c || isdigit c

theorem is_alnum_zero : is_alnum 0 = false := by decide

/-- Byte `i` of the current lexeme (`lexer->start[i]`). -/
def lexChar (l : Lexer) (i : Nat) : Nat := l.source.getD (l.start + i) 0

/-- check_keyword: exact length match plus memcmp of the tail. -/
def check_keyword (l : Lexer) (ofs : Nat) (rest : List Nat) (t : NsqlTokenType) :
    NsqlTokenType :=
  if l.current - l.start = ofs + rest.length ∧
      (l.source.drop (l.start + ofs)).take rest.length = rest then t
  else TOKEN_IDENTIFIER

/-- identifier_type: the keyword trie of lexer.c, byte for byte
(byte values: 65='A' … 90='Z').  Note there is no branch for 'I'. -/
def identifier_type (l : Lexer) : NsqlTokenType :=
  let len := l.current - l.start
  let c0 := lexChar l 0
  let c1 := lexChar l 1
  if c0 = 65 then -- 'A'
    if len > 1 then
      if c1 = 83 then (if len = 2 then TOKEN_AS else check_keyword l 2 [75] TOKEN_ASK)
      else if c1 = 78 then check_keyword l 2 [68] TOKEN_AND
      else if c1 = 68 then check_keyword l 2 [68] TOKEN_ADD
      else TOKEN_IDENTIFIER
    else TOKEN_IDENTIFIER
  else if c0 = 66 then -- 'B'
    if len > 1 ∧ c1 = 89 then check_keyword l 2 [] TOKEN_BY else TOKEN_IDENTIFIER
  else if c0 = 67 then -- 'C'
    if len > 1 ∧ c1 = 82 then check_keyword l 2 [69, 65, 84, 69] TOKEN_CREATE
    else TOKEN_IDENTIFIER
  else if c0 = 70 then -- 'F'
    if len > 1 then
      if c1 = 73 then check_keyword l 2 [78, 68] TOKEN_FIND
      else if c1 = 79 then check_keyword l 2 [82] TOKEN_FOR
      else if c1 = 82 then check_keyword l 2 [79, 77] TOKEN_FROM
      else TOKEN_IDENTIFIER
    else TOKEN_IDENTIFIER
  else if c0 = 71 then -- 'G'
    if len > 1 then
      if c1 = 69 then check_keyword l 2 [84] TOKEN_GET
      else if c1 = 82 then check_keyword l 2 [79, 85, 80] TOKEN_GROUP
      else TOKEN_IDENTIFIER
    else TOKEN_IDENTIFIER
  else if c0 = 72 then -- 'H'
    if len > 1 ∧ c1 = 65 then check_keyword l 2 [86, 73, 78, 71] TOKEN_HAVING
    else TOKEN_IDENTIFIER
  else if c0 = 76 then -- 'L'
    if len > 1 ∧ c1 = 73 then
      if len = 4 ∧ lexChar l 2 = 75 ∧ lexChar l 3 = 69 then TOKEN_LIKE
      else if len = 5 ∧ lexChar l 2 = 77 ∧ lexChar l 3 = 73 ∧ lexChar l 4 = 84 then
        TOKEN_LIMIT
      else TOKEN_IDENTIFIER
    else TOKEN_IDENTIFIER
  else if c0 = 78 then -- 'N'
    if len > 1 ∧ c1 = 79 then check_keyword l 2 [84] TOKEN_NOT else TOKEN_IDENTIFIER
  else if c0 = 79 then -- 'O'
    if len > 1 ∧ c1 = 82 then
      (if len = 2 then TOKEN_OR else check_keyword l 2 [68, 69, 82] TOKEN_ORDER)
    else TOKEN_IDENTIFIER
  else if c0 = 80 then -- 'P'
    if len > 1 ∧ c1 = 76 then check_keyword l 2 [69, 65, 83, 69] TOKEN_TERMINATOR
    else TOKEN_IDENTIFIER
  else if c0 = 82 then -- 'R'
    if len > 1 ∧ c1 = 69 then check_keyword l 2 [77, 79, 86, 69] TOKEN_REMOVE
    else TOKEN_IDENTIFIER
  else if c0 = 83 then -- 'S'
    if len > 1 then
      if c1 = 72 then check_keyword l 2 [79, 87] TOKEN_SHOW
      else if c1 = 79 then check_keyword l 2 [82, 84] TOKEN_SORT
      else TOKEN_IDENTIFIER
    else TOKEN_IDENTIFIER
  else if c0 = 84 then -- 'T'
    if len > 1 then
      if c1 = 69 then check_keyword l 2 [76, 76] TOKEN_TELL
      else if c1 = 72 then check_keyword l 2 [65, 84] TOKEN_THAT
      else if c1 = 79 then check_keyword l 2 [] TOKEN_TO
      else TOKEN_IDENTIFIER
    else TOKEN_IDENTIFIER
  else if c0 = 85 then -- 'U'
    if len > 1 ∧ c1 = 80 then check_keyword l 2 [68, 65, 84, 69] TOKEN_UPDATE
    else TOKEN_IDENTIFIER
  else if c0 = 87 then -- 'W'
    if len > 1 then
      if c1 = 72 then
        if len > 2 then
          if lexChar l 2 = 69 then check_keyword l 3 [82, 69] TOKEN_WHERE
          else if lexChar l 2 = 78 then check_keyword l 3 [] TOKEN_WHEN
          else if lexChar l 2 = 73 then check_keyword l 3 [67, 72] TOKEN_WHICH
          else TOKEN_IDENTIFIER
        else TOKEN_IDENTIFIER
      else if c1 = 73 then check_keyword l 2 [84, 72] TOKEN_WITH
      else TOKEN_IDENTIFIER
    else TOKEN_IDENTIFIER
  else TOKEN_IDENTIFIER

/-- The token's payload: a span into the source (make_token) or a static
diagnostic message (error_token). -/
inductive TokenLexeme where
  | span (start len : Nat)
  | msg (s : String)
deriving DecidableEq, Repr

structure Token where
  type : NsqlTokenType
  lexeme : TokenLexeme
  line : Nat
deriving DecidableEq, Repr

def make_token (l : Lexer) (t : NsqlTokenType) : Token :=
  { type := t, lexeme := .span l.start (l.current - l.start), line := l.line }

def error_token (l : Lexer) (message : String) : Token :=
  { type := TOKEN_ERROR, lexeme := .msg message, line := l.line }

/-- The scanning loop of identifier(): consume while alphanumeric. -/
def ident_loop : Nat → Lexer → Lexer
  | 0, l => l
  | fuel + 1, l => if is_alnum (peek l) then ident_loop fuel (advanceL l) else l

def identifier (l : Lexer) : Token × Lexer :=
  let l' := ident_loop (l.source.length + 1) l
  (make_token l' (identifier_type l'), l')

/-- The digit-scanning loop of number(). -/
def digit_loop : Nat → Lexer → Lexer
  | 0, l => l
  | fuel + 1, l => if isdigit (peek l) then digit_loop fuel (advanceL l) else l

def number (l : Lexer) : Token × Lexer :=
  let l1 := digit_loop (l.source.length + 1) l
  if peek l1 = 46 ∧ isdigit (peek_next l1) then
    let l2 := digit_loop (l.source.length + 1) (advanceL l1)
    (make_token l2 TOKEN_DECIMAL, l2)
  else (make_token l1 TOKEN_INTEGER, l1)

/-- The scanning loop of string(): consume until the closing quote or the
end of input, counting newlines. -/
def string_loop (quote : Nat) : Nat → Lexer → Lexer
  | 0, l => l
  | fuel + 1, l =>
    if peek l ≠ quote ∧ is_at_end l = false then
      if peek l = 10 then string_loop quote fuel (advanceL { l with line := l.line + 1 })
      else string_loop quote fuel (advanceL l)
    else l

/-- string(): the closing delimiter must equal the opening one
(`lexer->start[0]`); hitting the end first is "Unterminated string.". -/
def string (l : Lexer) : Token × Lexer :=
  let quote := lexChar l 0
  let l1 := string_loop quote (l.source.length + 1) l
  if is_at_end l1 then (error_token l1 "Unterminated string.", l1)
  else
    let l2 := advanceL l1
    (make_token l2 TOKEN_STRING, l2)

/-- lexer_next_token. -/
def lexer_next_token (l : Lexer) : Token × Lexer :=
  let l0 := skip_whitespace (l.source.length + 1) l
  let l1 := { l0 with start := l0.current }
  if is_at_end l1 then (make_token l1 TOKEN_EOF, l1)
  else
    let c := peek l1
    let l2 := advanceL l1
    if is_alpha c then identifier l2
    else if isdigit c then number l2
    else if c = 40 then (make_token l2 TOKEN_LPAREN, l2)
    else if c = 41 then (make_token l2 TOKEN_RPAREN, l2)
    else if c = 44 then (make_token l2 TOKEN_COMMA, l2)
    else if c = 61 then (make_token l2 TOKEN_EQUAL, l2)
    else if c = 60 then
      if peek l2 = 61 then (make_token (advanceL l2) TOKEN_LTE, advanceL l2)
      else (make_token l2 TOKEN_LT, l2)
    else if c = 62 then
      if peek l2 = 61 then (make_token (advanceL l2) TOKEN_GTE, advanceL l2)
      else (make_token l2 TOKEN_GT, l2)
    else if c = 33 then
      if peek l2 = 61 then (make_token (advanceL l2) TOKEN_NEQ, advanceL l2)
      else (make_token l2 TOKEN_ERROR, l2)
    else if c = 43 then (make_token l2 TOKEN_PLUS, l2)
    else if c = 45 then (make_token l2 TOKEN_MINUS, l2)
    else if c = 42 then (make_token l2 TOKEN_STAR, l2)
    else if c = 47 then (make_token l2 TOKEN_SLASH, l2)
    else if c = 37 then (make_token l2 TOKEN_PERCENT, l2)
    else if c = 34 ∨ c = 39 then string l2
    else if c = 59 then (make_token l2 TOKEN_TERMINATOR, l2)
    else (error_token l2 "Unexpected character.", l2)

/-- The token of the n-th repeated lexer_next_token call after state `l`
(n = 0 is the first call). -/
def lexer_token_at (l : Lexer) : Nat → Token × Lexer
  | 0 => lexer_next_token l
  | n + 1 => lexer_next_token (lexer_token_at l n).2

-- ===== Parser error machinery (parser.c) =====
-- The model covers the error-handling state machine: `advance` (which
-- pulls tokens and reports TOKEN_ERROR tokens), `error_at` and
-- `synchronize`.  Only the token kinds drive this control flow, so the
-- pending token stream is a list of kinds; pulling from an exhausted
-- lexer yields TOKEN_EOF forever (proved above about the lexer).  The
-- compile-time switch ENABLE_SYNC_RECOVERY is the `recovery` parameter.
-- The C loops are given explicit fuel; every theorem below supplies
-- enough fuel that the fuel-exhausted branch (returning the state as is)
-- is never taken.

structure Parser where
  tokens : List NsqlTokenType
  current : NsqlTokenType
  had_error : Bool
  panic_mode : Bool
deriving DecidableEq, Repr

/-- Pull the next token kind (TOKEN_EOF forever once exhausted). -/
def nextTok : List NsqlTokenType → NsqlTokenType × List NsqlTokenType
  | [] => (TOKEN_EOF, [])
  | t :: r => (t, r)

mutual

/-- advance: `current = lexer_next_token(..)`, reporting and looping
while the pulled token is TOKEN_ERROR. -/
def parserAdvance (recovery : Bool) : Nat → Parser → Parser
  | fuel, p =>
    let tr := nextTok p.tokens
    let p' : Parser := { p with current := tr.1, tokens := tr.2 }
    if tr.1 = TOKEN_ERROR then
      match fuel with
      | 0 => p'
      | f + 1 => parserAdvance recovery f (error_at recovery f p')
    else p'

/-- error_at: ignore while already panicking, otherwise set panic_mode
and had_error, record/print the diagnostic, and synchronize. -/
def error_at (recovery : Bool) : Nat → Parser → Parser
  | fuel, p =>
    if p.panic_mode then p
    else synchronize recovery fuel { p with panic_mode := true, had_error := true }

/-- synchronize: with ENABLE_SYNC_RECOVERY, clear panic_mode and skip
tokens up to a query-start keyword or EOF; without it, reset the parser
flags (including had_error) outright. -/
def synchronize (recovery : Bool) : Nat → Parser → Parser
  | fuel, p =>
    if recovery then syncLoop recovery fuel { p with panic_mode := false }
    else { p with panic_mode := false, had_error := false }

/-- The skip loop inside synchronize. -/
def syncLoop (recovery : Bool) : Nat → Parser → Parser
  | 0, p => p
  | fuel + 1, p =>
    if p.current = TOKEN_EOF then p
    else if p.current = TOKEN_ASK ∨ p.current = TOKEN_TELL ∨ p.current = TOKEN_FIND ∨
        p.current = TOKEN_SHOW ∨ p.current = TOKEN_GET then p
    else syncLoop recovery fuel (parserAdvance recovery fuel p)

end

-- ===== Error reporter (error_reporter.c) =====

/-- ErrorSeverity (error_reporter.h). -/
inductive ErrorSeverity where
  | ERROR_NONE | ERROR_WARNING | ERROR_ERROR | ERROR_FATAL
deriving DecidableEq, Repr

/-- Numeric value of the C enum constant (declaration order). -/
def ErrorSeverity.toNat : ErrorSeverity → Nat
  | .ERROR_NONE => 0 | .ERROR_WARNING => 1 | .ERROR_ERROR => 2 | .ERROR_FATAL => 3

/-- ErrorSource (error_reporter.h). -/
inductive ErrorSource where
  | ERROR_SOURCE_LEXER | ERROR_SOURCE_PARSER | ERROR_SOURCE_SEMANTIC
  | ERROR_SOURCE_RUNTIME | ERROR_SOURCE_SYSTEM
deriving DecidableEq, Repr

structure ErrorReport where
  severity : ErrorSeverity
  source : ErrorSource
  line : Int
  column : Int
  message : String
deriving DecidableEq, Repr

/-- ErrorContext: the `first_error`/`last_error` linked list is the list
of reports in arrival order.  The C counters are `int` but are only ever
incremented from zero. -/
structure ErrorContext where
  reports : List ErrorReport
  error_count : Nat
  warning_count : Nat
  has_error : Bool
  has_fatal : Bool
deriving DecidableEq, Repr

def error_context_init : ErrorContext :=
  { reports := [], error_count := 0, warning_count := 0,
    has_error := false, has_fatal := false }

/-- report_error on a non-NULL context and message, assuming no
allocation failure (in which case the C function returns true). -/
def report_error (ctx : ErrorContext) (severity : ErrorSeverity) (source : ErrorSource)
    (line column : Int) (message : String) : ErrorContext :=
  let report : ErrorReport :=
    { severity := severity, source := source, line := line, column := column,
      message := message }
  let ctx := { ctx with reports := ctx.reports ++ [report] }
  if severity = .ERROR_WARNING then { ctx with warning_count := ctx.warning_count + 1 }
  else if 2 ≤ severity.toNat then
    let ctx := { ctx with error_count := ctx.error_count + 1, has_error := true }
    if severity = .ERROR_FATAL then { ctx with has_fatal := true } else ctx
  else ctx

/-- Arguments of one report_error call. -/
structure ReportArgs where
  severity : ErrorSeverity
  source : ErrorSource
  line : Int
  column : Int
  message : String
deriving DecidableEq, Repr

def ReportArgs.toReport (a : ReportArgs) : ErrorReport :=
  { severity := a.severity, source := a.source, line := a.line, column := a.column,
    message := a.message }

/-- The context after a sequence of successful report_error calls. -/
def runReports (calls : List ReportArgs) : ErrorContext :=
  calls.foldl (fun ctx a => report_error ctx a.severity a.source a.line a.column a.message)
    error_context_init

-- ===== Derived predicates used by the statements below =====

/-- Reports counted by error_count (severity ≥ ERROR_ERROR). -/
def countsAsError (a : ReportArgs) : Bool :=
  a.severity == .ERROR_ERROR || a.severity == .ERROR_FATAL

def countsAsWarning (a : ReportArgs) : Bool := a.severity == .ERROR_WARNING

def isFatal (a : ReportArgs) : Bool := a.severity == .ERROR_FATAL

/-- The tokens at which synchronize stops skipping: the query-start
keywords and end of input. -/
def isSyncPoint (t : NsqlTokenType) : Bool :=
  t == TOKEN_EOF || t == TOKEN_ASK || t == TOKEN_TELL || t == TOKEN_FIND ||
    t == TOKEN_SHOW || t == TOKEN_GET

/-- The keywords of the documented keyword set that the trie of
identifier_type recognizes, as ASCII bytes with their token kinds.
IF, IN and WHEN are absent: the trie has no branch for them. -/
def recognizedKeywords : List (List Nat × NsqlTokenType) :=
  [([65, 83, 75], TOKEN_ASK), ([84, 69, 76, 76], TOKEN_TELL),
   ([70, 73, 78, 68], TOKEN_FIND), ([83, 72, 79, 87], TOKEN_SHOW),
   ([71, 69, 84], TOKEN_GET), ([70, 79, 82], TOKEN_FOR),
   ([70, 82, 79, 77], TOKEN_FROM), ([84, 79], TOKEN_TO),
   ([87, 72, 69, 82, 69], TOKEN_WHERE), ([84, 72, 65, 84], TOKEN_THAT),
   ([87, 72, 73, 67, 72], TOKEN_WHICH), ([71, 82, 79, 85, 80], TOKEN_GROUP),
   ([66, 89], TOKEN_BY), ([83, 79, 82, 84], TOKEN_SORT),
   ([79, 82, 68, 69, 82], TOKEN_ORDER), ([72, 65, 86, 73, 78, 71], TOKEN_HAVING),
   ([76, 73, 77, 73, 84], TOKEN_LIMIT), ([65, 78, 68], TOKEN_AND),
   ([79, 82], TOKEN_OR), ([78, 79, 84], TOKEN_NOT), ([65, 68, 68], TOKEN_ADD),
   ([82, 69, 77, 79, 86, 69], TOKEN_REMOVE), ([85, 80, 68, 65, 84, 69], TOKEN_UPDATE),
   ([67, 82, 69, 65, 84, 69], TOKEN_CREATE), ([87, 73, 84, 72], TOKEN_WITH),
   ([65, 83], TOKEN_AS), ([76, 73, 75, 69], TOKEN_LIKE)]

/-- A one-identifier AST used to exercise the codec round trip. -/
def roundtripNode : Node := Node.identifier (some [97]) 1

/-- A 300-byte target_index string ending in bytes 1, 1: long enough that
the backward trailer scan of ast_extract_metadata stays inside the
buffer, so the C code reads well-defined (but wrong) positions. -/
def roundtripTarget : Str := List.replicate 298 97 ++ [1, 1]

def roundtripMeta : ExecutionMetadata :=
  { hint_flags := 0, priority := 128, engine_type := ENGINE_AUTO,
    estimated_rows := 0, timeout_ms := 30000, target_index := some roundtripTarget }

-- ===================================================================
-- Theorems
-- ===================================================================

set_option maxRecDepth 4000

/-- Claim C4 (the code's actual behavior at the failing inputs): of the
documented keyword set, 27 words lex to their keyword tokens and both ";"
and "PLEASE" lex to the statement terminator, but the standalone words
"IF", "IN" and "WHEN" lex to TOKEN_IDENTIFIER — the keyword trie has no
'I' branch at all, and its WHEN arm is keyed on third letter 'N' (only
the word "WHN" would produce TOKEN_WHEN) — even though the parser
consumes TOKEN_IF, TOKEN_IN and TOKEN_WHEN. -/
theorem lexer_keyword_table :
    recognizedKeywords.all
      (fun kw => (lexer_next_token (lexer_init kw.1)).1.type == kw.2) = true ∧
    (lexer_next_token (lexer_init [59])).1.type = TOKEN_TERMINATOR ∧
    (lexer_next_token (lexer_init [80, 76, 69, 65, 83, 69])).1.type = TOKEN_TERMINATOR ∧
    (lexer_next_token (lexer_init [73, 70])).1.type = TOKEN_IDENTIFIER ∧
    (lexer_next_token (lexer_init [73, 78])).1.type = TOKEN_IDENTIFIER ∧
    (lexer_next_token (lexer_init [87, 72, 69, 78])).1.type = TOKEN_IDENTIFIER ∧
    (lexer_next_token (lexer_init [87, 72, 78])).1.type = TOKEN_WHEN := by
  refine ⟨by decide, by decide, by decide, by decide, by decide, by decide, by decide⟩

/-- Claim C9: the execution-hint constants do not form a disjoint bitset.
HINT_FULL_SCAN is 0x0003 = HINT_PARALLEL_EXEC ||| HINT_INDEX_SCAN, so any
hint_flags value with FULL_SCAN set also passes the membership tests for
PARALLEL_EXEC and INDEX_SCAN; no flags value records FULL_SCAN while
excluding either of those two hints. -/
theorem hint_full_scan_not_disjoint :
    HINT_FULL_SCAN = HINT_PARALLEL_EXEC ||| HINT_INDEX_SCAN ∧
    ∀ flags : Nat, flags &&& HINT_FULL_SCAN = HINT_FULL_SCAN →
      flags &&& HINT_PARALLEL_EXEC ≠ 0 ∧ flags &&& HINT_INDEX_SCAN ≠ 0 := by
  refine ⟨by decide, fun flags h => ⟨?_, ?_⟩⟩
  · have h1 : flags &&& HINT_FULL_SCAN &&& HINT_PARALLEL_EXEC =
        HINT_FULL_SCAN &&& HINT_PARALLEL_EXEC := by rw [h]
    rw [Nat.and_assoc] at h1
    have h2 : HINT_FULL_SCAN &&& HINT_PARALLEL_EXEC = HINT_PARALLEL_EXEC := by decide
    rw [h2] at h1
    rw [h1]
    decide
  · have h1 : flags &&& HINT_FULL_SCAN &&& HINT_INDEX_SCAN =
        HINT_FULL_SCAN &&& HINT_INDEX_SCAN := by rw [h]
    rw [Nat.and_assoc] at h1
    have h2 : HINT_FULL_SCAN &&& HINT_INDEX_SCAN = HINT_INDEX_SCAN := by decide
    rw [h2] at h1
    rw [h1]
    decide

/-- Witness for C9 at the concrete flags value 0x0043 (the FIND hint set). -/
theorem hint_full_scan_not_disjoint_witness :
    (0x0043 &&& HINT_FULL_SCAN = HINT_FULL_SCAN) ∧
    0x0043 &&& HINT_PARALLEL_EXEC ≠ 0 ∧ 0x0043 &&& HINT_INDEX_SCAN ≠ 0 :=
  ⟨by decide, hint_full_scan_not_disjoint.2 0x0043 (by decide)⟩

/-- Claim C3: ast_create_metadata returns exactly the classification
table: defaults with no root; FIND ⇒ NoSQL with READ_ONLY, PARALLEL_EXEC
and FULL_SCAN, timeout 10000, 10000 rows; SHOW/GET ⇒ NoSQL with
CACHE_RESULT, priority 96, 1000 rows; ASK ⇒ SQL with INDEX_SCAN and 100
rows when it has a condition, else FULL_SCAN and 1000 rows, plus
CACHE_RESULT when it has a LIMIT; TELL ⇒ SQL, priority 192, no read-only
hint, 1 row. -/
theorem ast_create_metadata_classification :
    (ast_create_metadata none =
      { hint_flags := 0, priority := 128, engine_type := ENGINE_AUTO,
        estimated_rows := 0, timeout_ms := 30000, target_index := none }) ∧
    (∀ src cond gb ob lim line,
      ast_create_metadata (some (.find_query src cond gb ob lim line)) =
        { hint_flags := HINT_READ_ONLY ||| HINT_PARALLEL_EXEC ||| HINT_FULL_SCAN,
          priority := 128, engine_type := ENGINE_NOSQL, estimated_rows := 10000,
          timeout_ms := 10000, target_index := none }) ∧
    (∀ src fields cond gb ob lim line,
      ast_create_metadata (some (.show_query src fields cond gb ob lim line)) =
        { hint_flags := HINT_READ_ONLY ||| HINT_PARALLEL_EXEC ||| HINT_CACHE_RESULT,
          priority := 96, engine_type := ENGINE_NOSQL, estimated_rows := 1000,
          timeout_ms := 10000, target_index := none }) ∧
    (∀ src fields cond gb ob lim line,
      ast_create_metadata (some (.get_query src fields cond gb ob lim line)) =
        { hint_flags := HINT_READ_ONLY ||| HINT_PARALLEL_EXEC ||| HINT_CACHE_RESULT,
          priority := 96, engine_type := ENGINE_NOSQL, estimated_rows := 1000,
          timeout_ms := 10000, target_index := none }) ∧
    (∀ src fields cond gb ob lim line,
      ast_create_metadata (some (.ask_query src fields cond gb ob lim line)) =
        { hint_flags :=
            (HINT_READ_ONLY ||| (if cond.isSome then HINT_INDEX_SCAN else HINT_FULL_SCAN)) |||
              (if lim.isSome then HINT_CACHE_RESULT else 0),
          priority := 128, engine_type := ENGINE_SQL,
          estimated_rows := if cond.isSome then 100 else 1000,
          timeout_ms := 30000, target_index := none }) ∧
    (∀ src action cond line,
      ast_create_metadata (some (.tell_query src action cond line)) =
        { hint_flags := 0, priority := 192, engine_type := ENGINE_SQL,
          estimated_rows := 1, timeout_ms := 30000, target_index := none }) := by
  refine ⟨rfl, fun _ _ _ _ _ _ => by rfl, fun _ _ _ _ _ _ _ => by rfl,
    fun _ _ _ _ _ _ _ => by rfl, fun src fields cond gb ob lim line => ?_,
    fun _ _ _ _ => by rfl⟩
  cases cond <;> cases lim <;>
    (simp only [ast_create_metadata, ast_is_nosql_query]; norm_num)

/-- Claim C7: a string field longer than 65535 bytes is encoded as the
u16 length prefix 65535 followed by exactly the first 65535 bytes, a
warning is emitted on the side channel, and ast_serialize still returns
a successful (valid, non-NULL) result. -/
theorem write_string_truncation (s : Str) (line : Nat) (h : 65535 < s.length) :
    write_string (some s) = (write_uint16 65535 ++ s.take 65535, true) ∧
    (serialize_node (Node.error (some s) line)).1 =
      write_uint8 22 ++ write_uint32 line ++ (write_uint16 65535 ++ s.take 65535) ∧
    (ast_serialize (Node.error (some s) line) none).2 = true ∧
    (ast_serialize (Node.error (some s) line) none).1.is_valid = true := by
  have hw : write_string (some s) = (write_uint16 65535 ++ s.take 65535, true) := by
    rw [write_string, if_pos (show s.length > 65535 from h)]
  refine ⟨hw, ?_, ?_, rfl⟩
  · show (wcat (write_uint8 22 ++ write_uint32 line, false) (write_string (some s))).1 = _
    rw [hw, wcat]
  · show (wcat (serialize_node (Node.error (some s) line)) (serialize_metadata none)).2 = true
    show ((serialize_node (Node.error (some s) line)).2 || (serialize_metadata none).2) = true
    show ((wcat (write_uint8 22 ++ write_uint32 line, false) (write_string (some s))).2 ||
      (serialize_metadata none).2) = true
    rw [hw]
    rfl

/-- Witness for C7 at a concrete 70000-byte string. -/
theorem write_string_truncation_witness :
    write_string (some (List.replicate 70000 97)) =
      (write_uint16 65535 ++ (List.replicate 70000 97).take 65535, true) ∧
    (ast_serialize (Node.error (some (List.replicate 70000 97)) 1) none).2 = true ∧
    (ast_serialize (Node.error (some (List.replicate 70000 97)) 1) none).1.is_valid = true :=
  have h := write_string_truncation (List.replicate 70000 97) 1
    (by rw [List.length_replicate]; norm_num)
  ⟨h.1, h.2.2.1, h.2.2.2⟩

-- ===== C10: the error-context invariants =====

theorem report_fold (calls : List ReportArgs) : ∀ ctx : ErrorContext,
    (calls.foldl
        (fun c a => report_error c a.severity a.source a.line a.column a.message) ctx) =
      { reports := ctx.reports ++ calls.map ReportArgs.toReport,
        error_count := ctx.error_count + (calls.filter countsAsError).length,
        warning_count := ctx.warning_count + (calls.filter countsAsWarning).length,
        has_error := ctx.has_error || calls.any countsAsError,
        has_fatal := ctx.has_fatal || calls.any isFatal } := by
  induction calls with
  | nil => intro ctx; simp
  | cons a rest ih =>
    intro ctx
    rw [List.foldl_cons, ih]
    cases ha : a.severity <;>
      simp [report_error, ha, countsAsError, countsAsWarning, isFatal,
        ReportArgs.toReport, ErrorSeverity.toNat, Bool.or_assoc, Nat.add_assoc,
        Nat.add_comm 1] <;>
      first
      | exact ⟨rfl, rfl⟩
      | rfl

/-- Claim C10: after any sequence of successful report_error calls on an
initialized ErrorContext, the reports sit in arrival order; error_count
counts the Error and Fatal reports; warning_count counts the Warning
reports; has_error holds exactly when error_count > 0; has_fatal holds
exactly when some report was Fatal; Info (ERROR_NONE) reports are
appended to the list but counted in neither counter. -/
theorem error_context_invariants (calls : List ReportArgs) :
    (runReports calls).reports = calls.map ReportArgs.toReport ∧
    (runReports calls).error_count = (calls.filter countsAsError).length ∧
    (runReports calls).warning_count = (calls.filter countsAsWarning).length ∧
    ((runReports calls).has_error = true ↔ 0 < (runReports calls).error_count) ∧
    ((runReports calls).has_fatal = true ↔ ∃ a ∈ calls, a.severity = .ERROR_FATAL) ∧
    ∀ a ∈ calls, a.severity = .ERROR_NONE →
      a.toReport ∈ (runReports calls).reports ∧
        countsAsError a = false ∧ countsAsWarning a = false := by
  have h := report_fold calls error_context_init
  rw [runReports, h]
  refine ⟨by simp [error_context_init], by simp [error_context_init],
    by simp [error_context_init], ?_, ?_, ?_⟩
  · simp only [error_context_init, Bool.false_or, Nat.zero_add]
    rw [List.any_eq_true]
    constructor
    · rintro ⟨a, ha, hp⟩
      have : a ∈ calls.filter countsAsError := List.mem_filter.2 ⟨ha, hp⟩
      calc 0 < 1 := Nat.zero_lt_one
        _ ≤ (calls.filter countsAsError).length :=
          List.length_pos.2 (fun he => by simp [he] at this)
    · intro hlen
      obtain ⟨a, ha⟩ := List.exists_mem_of_length_pos hlen
      exact ⟨a, (List.mem_filter.1 ha).1, (List.mem_filter.1 ha).2⟩
  · simp only [error_context_init, Bool.false_or]
    rw [List.any_eq_true]
    constructor
    · rintro ⟨a, ha, hp⟩
      exact ⟨a, ha, by simpa [isFatal] using hp⟩
    · rintro ⟨a, ha, hp⟩
      exact ⟨a, ha, by simp [isFatal, hp]⟩
  · intro a ha hnone
    refine ⟨?_, ?_, ?_⟩
    · show a.toReport ∈ error_context_init.reports ++ calls.map ReportArgs.toReport
      simp only [error_context_init, List.nil_append]
      exact List.mem_map_of_mem ReportArgs.toReport ha
    · simp [countsAsError, hnone]
    · simp [countsAsWarning, hnone]

-- ===== C5: parser error recovery =====

/-- With recovery enabled no operation of the error machinery ever
clears had_error: every writer of the flag only sets it. -/
theorem modeA_had_error_mono (fuel : Nat) :
    (∀ p : Parser, p.had_error = true → (syncLoop true fuel p).had_error = true) ∧
    (∀ p : Parser, p.had_error = true → (synchronize true fuel p).had_error = true) ∧
    (∀ p : Parser, p.had_error = true → (error_at true fuel p).had_error = true) ∧
    (∀ p : Parser, p.had_error = true → (parserAdvance true fuel p).had_error = true) := by
  induction fuel using Nat.strong_induction_on with
  | _ fuel ih =>
    have hsync : ∀ p : Parser, p.had_error = true →
        (syncLoop true fuel p).had_error = true := by
      intro p hp
      match fuel with
      | 0 => rw [syncLoop]; exact hp
      | f + 1 =>
        rw [syncLoop]
        split
        · exact hp
        · split
          · exact hp
          · exact (ih f (Nat.lt_succ_self f)).1 _ ((ih f (Nat.lt_succ_self f)).2.2.2 p hp)
    have hsynchronize : ∀ p : Parser, p.had_error = true →
        (synchronize true fuel p).had_error = true := by
      intro p hp
      rw [synchronize]
      exact hsync _ hp
    have herror : ∀ p : Parser, p.had_error = true →
        (error_at true fuel p).had_error = true := by
      intro p hp
      rw [error_at]
      split
      · exact hp
      · exact hsynchronize _ rfl
    refine ⟨hsync, hsynchronize, herror, fun p hp => ?_⟩
    rw [parserAdvance.eq_def]
    cases htok : p.tokens with
    | nil =>
      simp only [htok, nextTok]
      exact hp
    | cons t r =>
      by_cases ht : t = TOKEN_ERROR
      · subst ht
        simp only [htok, nextTok, if_pos rfl]
        match fuel with
        | 0 => exact hp
        | f + 1 =>
          exact (ih f (Nat.lt_succ_self f)).2.2.2 _ ((ih f (Nat.lt_succ_self f)).2.2.1 _ hp)
      · simp only [htok, nextTok, if_neg ht]
        exact hp

theorem syncLoop_fix (r : Bool) (fuel : Nat) (p : Parser) (h : p.current = TOKEN_EOF) :
    syncLoop r fuel p = p := by
  match fuel with
  | 0 => rw [syncLoop]
  | f + 1 => rw [syncLoop, if_pos h]

/-- With recovery enabled and an error-token-free pending stream, the
skip loop always stops on a query-start keyword or EOF. -/
theorem syncLoop_reaches : ∀ (fuel : Nat) (p : Parser), TOKEN_ERROR ∉ p.tokens →
    p.tokens.length < fuel → isSyncPoint (syncLoop true fuel p).current = true := by
  intro fuel
  induction fuel with
  | zero => exact fun p _ h => absurd h (Nat.not_lt_zero _)
  | succ f ihf =>
    intro p hne hlen
    rw [syncLoop]
    split
    · rename_i h
      simp [isSyncPoint, h]
    · split
      · rename_i h
        rcases h with h | h | h | h | h <;> simp [isSyncPoint, h]
      · cases htok : p.tokens with
        | nil =>
          have hadv : parserAdvance true f p =
              { p with current := TOKEN_EOF, tokens := [] } := by
            rw [parserAdvance.eq_def]
            simp [htok, nextTok]
          rw [hadv, syncLoop_fix true f _ rfl]
          rfl
        | cons t r =>
          have ht : t ≠ TOKEN_ERROR := fun h => hne (h ▸ htok ▸ List.mem_cons_self t r)
          have hadv : parserAdvance true f p = { p with current := t, tokens := r } := by
            rw [parserAdvance.eq_def]
            simp [htok, nextTok, ht]
          rw [hadv]
          refine ihf _ (fun hmem => hne (htok ▸ List.mem_cons_of_mem t hmem)) ?_
          rw [htok] at hlen
          simpa using Nat.lt_of_succ_lt_succ hlen

/-- Claim C5: after the parser reports an error (error_at on a state not
already in panic mode): with recovery enabled, tokens are skipped until
the current token is ASK, TELL, FIND, SHOW, GET or EOF and had_error is
set and stays set (no operation of the machinery ever clears it); with
recovery disabled, had_error and panic_mode are both cleared
immediately, so a caller inspecting had_error afterwards sees false. -/
theorem parser_error_recovery_modes (p : Parser) (fuel : Nat)
    (hpanic : p.panic_mode = false) (hne : TOKEN_ERROR ∉ p.tokens)
    (hfuel : p.tokens.length < fuel) :
    ((error_at true fuel p).had_error = true ∧
      isSyncPoint (error_at true fuel p).current = true) ∧
    (∀ (fuel' : Nat) (q : Parser), q.had_error = true →
      (parserAdvance true fuel' q).had_error = true ∧
      (error_at true fuel' q).had_error = true ∧
      (synchronize true fuel' q).had_error = true ∧
      (syncLoop true fuel' q).had_error = true) ∧
    ((error_at false fuel p).had_error = false ∧
      (error_at false fuel p).panic_mode = false) := by
  have hnotpanic : ¬ (p.panic_mode = true) := by rw [hpanic]; exact Bool.false_ne_true
  refine ⟨?_, ?_, ?_⟩
  · rw [error_at, if_neg hnotpanic, synchronize, if_pos rfl]
    constructor
    · exact (modeA_had_error_mono fuel).1 _ rfl
    · exact syncLoop_reaches fuel _ hne hfuel
  · intro fuel' q hq
    exact ⟨(modeA_had_error_mono fuel').2.2.2 q hq, (modeA_had_error_mono fuel').2.2.1 q hq,
      (modeA_had_error_mono fuel').2.1 q hq, (modeA_had_error_mono fuel').1 q hq⟩
  · rw [error_at, if_neg hnotpanic, synchronize, if_neg Bool.false_ne_true]
    exact ⟨rfl, rfl⟩

/-- Witness for C5 at a concrete parser state and token stream. -/
theorem parser_error_recovery_modes_witness :
    ((error_at true 4 ⟨[TOKEN_COMMA, TOKEN_FIND], TOKEN_FOR, false, false⟩).had_error = true ∧
      isSyncPoint
        (error_at true 4 ⟨[TOKEN_COMMA, TOKEN_FIND], TOKEN_FOR, false, false⟩).current = true) ∧
    (parserAdvance true 2 ⟨[], TOKEN_EOF, true, false⟩).had_error = true ∧
    ((error_at false 4 ⟨[TOKEN_COMMA, TOKEN_FIND], TOKEN_FOR, false, false⟩).had_error = false ∧
      (error_at false 4 ⟨[TOKEN_COMMA, TOKEN_FIND], TOKEN_FOR, false, false⟩).panic_mode = false) :=
  have h := parser_error_recovery_modes ⟨[TOKEN_COMMA, TOKEN_FIND], TOKEN_FOR, false, false⟩ 4
    rfl (by decide) (by decide)
  ⟨h.1, (h.2.1 2 ⟨[], TOKEN_EOF, true, false⟩ rfl).1, h.2.2⟩

-- ===== C8: lexer EOF behavior and error tokens =====

theorem peek_at_end {l : Lexer} (h : is_at_end l = true) : peek l = 0 :=
  List.getD_eq_default _ _ (of_decide_eq_true h)

theorem skip_whitespace_at_end (fuel : Nat) (l : Lexer) (h : is_at_end l = true) :
    skip_whitespace fuel l = l := by
  cases fuel with
  | zero => rfl
  | succ f =>
    have hp := peek_at_end h
    rw [skip_whitespace]
    rw [if_neg (by rw [hp]; decide), if_neg (by rw [hp]; decide), if_neg ?_]
    intro hc
    rw [hp] at hc
    exact absurd hc.1 (by decide)

theorem lexer_next_token_at_end (l : Lexer) (h : is_at_end l = true) :
    lexer_next_token l =
      (make_token { l with start := l.current } TOKEN_EOF, { l with start := l.current }) := by
  rw [lexer_next_token]
  rw [skip_whitespace_at_end _ _ h]
  rw [if_pos (show is_at_end { l with start := l.current } = true from h)]

/-- Claim C8: once the lexer reaches the end of the source every further
lexer_next_token call returns an EOF token; an unterminated string (a
quote with no matching closing delimiter before the end) yields an Error
token carrying the static message "Unterminated string."; an
unrecognized character yields an Error token carrying the static message
"Unexpected character." — never a silent skip, and the payload is the
message, not a span of the source. -/
theorem lexer_eof_and_error_tokens :
    (∀ l : Lexer, is_at_end l = true → ∀ n, (lexer_token_at l n).1.type = TOKEN_EOF) ∧
    (∀ (q : Nat) (body : List Nat), (q = 34 ∨ q = 39) → q ∉ body →
      (lexer_next_token (lexer_init (q :: body))).1.type = TOKEN_ERROR ∧
      (lexer_next_token (lexer_init (q :: body))).1.lexeme =
        TokenLexeme.msg "Unterminated string.") ∧
    (∀ (c : Nat) (rest : List Nat), is_alpha c = false → isdigit c = false →
      c ∉ [32, 13, 9, 10, 62, 40, 41, 44, 61, 60, 33, 43, 45, 42, 47, 37, 34, 39, 59] →
      (lexer_next_token (lexer_init (c :: rest))).1.type = TOKEN_ERROR ∧
      (lexer_next_token (lexer_init (c :: rest))).1.lexeme =
        TokenLexeme.msg "Unexpected character.") := by
  refine ⟨?_, ?_, ?_⟩
  · intro l h n
    have key : ∀ n, (lexer_token_at l n).1.type = TOKEN_EOF ∧
        is_at_end (lexer_token_at l n).2 = true := by
      intro n
      induction n with
      | zero =>
        rw [show lexer_token_at l 0 = lexer_next_token l from rfl,
          lexer_next_token_at_end l h]
        exact ⟨rfl, h⟩
      | succ m ihm =>
        rw [show lexer_token_at l (m + 1) = lexer_next_token (lexer_token_at l m).2 from rfl,
          lexer_next_token_at_end _ ihm.2]
        exact ⟨rfl, ihm.2⟩
    exact (key n).1
  · intro q body hq hmem
    have hloop : ∀ (fuel : Nat) (l : Lexer), l.source = q :: body →
        1 ≤ l.current → l.source.length - l.current < fuel →
        is_at_end (string_loop q fuel l) = true := by
      intro fuel
      induction fuel with
      | zero => intro l _ _ h; exact absurd h (Nat.not_lt_zero _)
      | succ f ihf =>
        intro l hsrc hcur hm
        rw [string_loop]
        by_cases hend : is_at_end l = true
        · rw [if_neg (by rw [hend]; simp)]
          exact hend
        · have hend' : is_at_end l = false := Bool.eq_false_iff.2 hend
          have hlt : l.current < l.source.length := by
            have h2 : ¬ (l.source.length ≤ l.current) := of_decide_eq_false hend'
            omega
          have hpk : peek l ≠ q := by
            intro hpq
            have hget : l.source.getD l.current 0 = q := hpq
            rw [hsrc] at hget hlt
            refine hmem ?_
            rcases Nat.exists_eq_add_of_le hcur with ⟨k, hk⟩
            rw [Nat.add_comm] at hk
            rw [hk] at hget hlt
            rw [List.getD_cons_succ] at hget
            rw [← hget]
            have hklt : k < body.length := by simp at hlt; omega
            rw [List.getD_eq_getElem _ _ hklt]
            exact List.getElem_mem hklt
          rw [if_pos ⟨hpk, hend'⟩]
          have hm' : ∀ l' : Lexer, l'.source = q :: body → l'.current = l.current + 1 →
              l'.source.length - l'.current < f := by
            intro l' hs hc
            rw [hs, hc]
            rw [hsrc] at hm hlt
            omega
          split
          · exact ihf _ hsrc (by simp [advanceL]) (hm' _ hsrc rfl)
          · exact ihf _ hsrc (by simp [advanceL]) (hm' _ hsrc rfl)
    have hfacts : q ≠ 32 ∧ q ≠ 13 ∧ q ≠ 9 ∧ q ≠ 10 ∧ q ≠ 62 ∧ is_alpha q = false ∧
        isdigit q = false ∧ q ≠ 40 ∧ q ≠ 41 ∧ q ≠ 44 ∧ q ≠ 61 ∧ q ≠ 60 ∧ q ≠ 33 ∧
        q ≠ 43 ∧ q ≠ 45 ∧ q ≠ 42 ∧ q ≠ 47 ∧ q ≠ 37 := by
      rcases hq with rfl | rfl <;> exact (by decide)
    obtain ⟨h32, h13, h9, h10, h62, halpha, hdigit, h40, h41, h44, h61, h60, h33, h43,
      h45, h42, h47, h37⟩ := hfacts
    have hpk : peek (lexer_init (q :: body)) = q := rfl
    have hsw : skip_whitespace ((lexer_init (q :: body)).source.length + 1)
        (lexer_init (q :: body)) = lexer_init (q :: body) := by
      rw [show (lexer_init (q :: body)).source.length + 1 = body.length + 1 + 1 from by
        simp [lexer_init]]
      rw [skip_whitespace]
      rw [if_neg (by rw [hpk]; tauto), if_neg (by rw [hpk]; exact h10),
        if_neg (fun hc => h62 (hpk ▸ hc.1))]
    rw [lexer_next_token, hsw]
    rw [if_neg (by simp [is_at_end, lexer_init])]
    have hpk1 : peek { lexer_init (q :: body) with
        start := (lexer_init (q :: body)).current } = q := rfl
    rw [hpk1]
    rw [if_neg (by rw [halpha]; exact Bool.false_ne_true),
      if_neg (by rw [hdigit]; exact Bool.false_ne_true),
      if_neg h40, if_neg h41, if_neg h44, if_neg h61, if_neg h60, if_neg h62,
      if_neg h33, if_neg h43, if_neg h45, if_neg h42, if_neg h47, if_neg h37,
      if_pos hq]
    rw [string]
    have hquote : lexChar (advanceL { lexer_init (q :: body) with
        start := (lexer_init (q :: body)).current }) 0 = q := rfl
    rw [hquote]
    have hend := hloop ((advanceL { lexer_init (q :: body) with
        start := (lexer_init (q :: body)).current }).source.length + 1)
      (advanceL { lexer_init (q :: body) with start := (lexer_init (q :: body)).current })
      rfl (le_refl 1) (by simp [lexer_init, advanceL]; omega)
    rw [if_pos hend]
    exact ⟨rfl, rfl⟩
  · intro c rest halpha hdigit hns
    simp only [List.mem_cons, not_or] at hns
    obtain ⟨h32, h13, h9, h10, h62, h40, h41, h44, h61, h60, h33, h43, h45, h42, h47,
      h37, h34, h39, h59, -⟩ := hns
    have hsw : skip_whitespace ((lexer_init (c :: rest)).source.length + 1)
        (lexer_init (c :: rest)) = lexer_init (c :: rest) := by
      rw [show (lexer_init (c :: rest)).source.length + 1 = rest.length + 1 + 1 from by
        simp [lexer_init]]
      rw [skip_whitespace]
      have hpk : peek (lexer_init (c :: rest)) = c := rfl
      rw [if_neg (by rw [hpk]; tauto), if_neg (by rw [hpk]; tauto),
        if_neg (by rw [hpk]; tauto)]
    rw [lexer_next_token, hsw]
    rw [if_neg (by simp [is_at_end, lexer_init])]
    have hpk : peek { lexer_init (c :: rest) with
        start := (lexer_init (c :: rest)).current } = c := rfl
    rw [hpk]
    rw [if_neg (by rw [halpha]; exact Bool.false_ne_true),
      if_neg (by rw [hdigit]; exact Bool.false_ne_true),
      if_neg h40, if_neg h41, if_neg h44, if_neg h61, if_neg h60, if_neg h62,
      if_neg h33, if_neg h43, if_neg h45, if_neg h42, if_neg h47, if_neg h37,
      if_neg (by tauto), if_neg h59]
    exact ⟨rfl, rfl⟩

/-- Witness for C8: the empty source lexes to EOF on the second call too;
the source `'a` is an unterminated string; the source `@` is an
unexpected character. -/
theorem lexer_eof_and_error_tokens_witness :
    (lexer_token_at (lexer_init []) 1).1.type = TOKEN_EOF ∧
    ((lexer_next_token (lexer_init [39, 97])).1.type = TOKEN_ERROR ∧
      (lexer_next_token (lexer_init [39, 97])).1.lexeme =
        TokenLexeme.msg "Unterminated string.") ∧
    ((lexer_next_token (lexer_init [64])).1.type = TOKEN_ERROR ∧
      (lexer_next_token (lexer_init [64])).1.lexeme =
        TokenLexeme.msg "Unexpected character.") :=
  ⟨lexer_eof_and_error_tokens.1 (lexer_init []) (by decide) 1,
   lexer_eof_and_error_tokens.2.1 39 [97] (Or.inr rfl) (by decide),
   lexer_eof_and_error_tokens.2.2 64 [] (by decide) (by decide) (by decide)⟩

-- ===== C2: deserialization failure modes =====

/-- Claim C2: ast_deserialize returns NULL (no partial object) exactly
when the buffer is shorter than the 28-byte header, the magic field
differs from AST_MAGIC_NUMBER, the version field exceeds AST_VERSION, or
the total size is not 28 plus the header's data_size; when all checks
pass it returns an object whose is_valid is false exactly when the
stored checksum differs from the CRC32 recomputed over the data region. -/
theorem ast_deserialize_failure_modes (data : List Nat) :
    (ast_deserialize data = none ↔
      data.length < AST_HEADER_SIZE ∨ readU32 data 0 ≠ AST_MAGIC_NUMBER ∨
        AST_VERSION < readU32 data 4 ∨
        data.length ≠ AST_HEADER_SIZE + readU32 data 12) ∧
    (¬ (data.length < AST_HEADER_SIZE ∨ readU32 data 0 ≠ AST_MAGIC_NUMBER ∨
        AST_VERSION < readU32 data 4 ∨
        data.length ≠ AST_HEADER_SIZE + readU32 data 12) →
      ∃ ast, ast_deserialize data = some ast ∧
        (ast.is_valid = false ↔
          calculate_crc32 ((data.drop AST_HEADER_SIZE).take (readU32 data 12)) ≠
            readU32 data 20)) := by
  simp only [ast_deserialize]
  by_cases h1 : data.length < AST_HEADER_SIZE
  · rw [if_pos h1]
    exact ⟨by simp [h1], fun hc => absurd (Or.inl h1) hc⟩
  · rw [if_neg h1]
    by_cases h2 : readU32 data 0 ≠ AST_MAGIC_NUMBER
    · rw [if_pos h2]
      exact ⟨by simp [h2], fun hc => absurd (Or.inr (Or.inl h2)) hc⟩
    · rw [if_neg h2]
      by_cases h3 : AST_VERSION < readU32 data 4
      · rw [if_pos h3]
        exact ⟨by simp [h3], fun hc => absurd (Or.inr (Or.inr (Or.inl h3))) hc⟩
      · rw [if_neg h3]
        by_cases h4 : data.length ≠ AST_HEADER_SIZE + readU32 data 12
        · rw [if_pos h4]
          exact ⟨by simp [h4], fun hc => absurd (Or.inr (Or.inr (Or.inr h4))) hc⟩
        · rw [if_neg h4]
          refine ⟨by simp [h1, h2, h3, h4], fun _ => ⟨_, rfl, ?_⟩⟩
          show ((calculate_crc32 ((data.drop AST_HEADER_SIZE).take (readU32 data 12)) ==
            readU32 data 20) = false) ↔ _
          exact beq_eq_false_iff_ne

/-- Witness for C2: a 28-byte buffer with valid magic, version and size
but a stored checksum of 1 against a computed checksum of 0 deserializes
to an object with is_valid = false. -/
theorem ast_deserialize_failure_modes_witness :
    ∃ ast,
      ast_deserialize (write_uint32 AST_MAGIC_NUMBER ++ (write_uint32 1 ++
        (write_uint32 0 ++ (write_uint32 0 ++ (write_uint32 0 ++ (write_uint32 1 ++
          write_uint32 0)))))) = some ast ∧ ast.is_valid = false := by
  obtain ⟨ast, hsome, hiff⟩ :=
    (ast_deserialize_failure_modes (write_uint32 AST_MAGIC_NUMBER ++ (write_uint32 1 ++
      (write_uint32 0 ++ (write_uint32 0 ++ (write_uint32 0 ++ (write_uint32 1 ++
        write_uint32 0))))))).2 (by decide)
  exact ⟨ast, hsome, hiff.2 (by decide)⟩

-- ===== CRC32 range lemmas and header-field reading =====

theorem crcStep1_lt {c : Nat} (h : c < 2 ^ 32) : crcStep1 c < 2 ^ 32 := by
  rw [crcStep1]
  have hs : c >>> 1 < 2 ^ 32 := by
    rw [Nat.shiftRight_eq_div_pow]
    exact Nat.lt_of_le_of_lt (Nat.div_le_self c (2 ^ 1)) h
  split
  · exact Nat.xor_lt_two_pow (by norm_num) hs
  · exact hs

theorem crc32_table_lt {n : Nat} (h : n < 2 ^ 32) : crc32_table n < 2 ^ 32 :=
  crcStep1_lt (crcStep1_lt (crcStep1_lt (crcStep1_lt
    (crcStep1_lt (crcStep1_lt (crcStep1_lt (crcStep1_lt h)))))))

theorem crc32Update_lt {c : Nat} (b : Nat) (h : c < 2 ^ 32) : crc32Update c b < 2 ^ 32 := by
  rw [crc32Update]
  refine Nat.xor_lt_two_pow (crc32_table_lt ?_) ?_
  · exact Nat.lt_of_le_of_lt Nat.and_le_right (by norm_num)
  · rw [Nat.shiftRight_eq_div_pow]
    exact Nat.lt_of_le_of_lt (Nat.div_le_self c (2 ^ 8)) h

theorem crc_foldl_lt (l : List Nat) : ∀ c : Nat, c < 2 ^ 32 →
    l.foldl crc32Update c < 2 ^ 32 := by
  induction l with
  | nil => exact fun c h => h
  | cons b rest ih => exact fun c h => ih _ (crc32Update_lt b h)

theorem calculate_crc32_lt (l : List Nat) : calculate_crc32 l < 2 ^ 32 :=
  Nat.xor_lt_two_pow (crc_foldl_lt l _ (by norm_num)) (by norm_num)

theorem header_readU32_0 (a b c d e f g : Nat) (rest : List Nat) :
    readU32 (write_uint32 a ++ (write_uint32 b ++ (write_uint32 c ++ (write_uint32 d ++
      (write_uint32 e ++ (write_uint32 f ++ (write_uint32 g ++ rest))))))) 0 =
      a % 2 ^ 32 := by
  have h : readU32 (write_uint32 a ++ (write_uint32 b ++ (write_uint32 c ++ (write_uint32 d ++
      (write_uint32 e ++ (write_uint32 f ++ (write_uint32 g ++ rest))))))) 0 =
      a % 256 + 256 * (a / 256 % 256) + 2 ^ 16 * (a / 2 ^ 16 % 256) +
        2 ^ 24 * (a / 2 ^ 24 % 256) := rfl
  rw [h]
  omega

theorem header_readU32_4 (a b c d e f g : Nat) (rest : List Nat) :
    readU32 (write_uint32 a ++ (write_uint32 b ++ (write_uint32 c ++ (write_uint32 d ++
      (write_uint32 e ++ (write_uint32 f ++ (write_uint32 g ++ rest))))))) 4 =
      b % 2 ^ 32 := by
  have h : readU32 (write_uint32 a ++ (write_uint32 b ++ (write_uint32 c ++ (write_uint32 d ++
      (write_uint32 e ++ (write_uint32 f ++ (write_uint32 g ++ rest))))))) 4 =
      b % 256 + 256 * (b / 256 % 256) + 2 ^ 16 * (b / 2 ^ 16 % 256) +
        2 ^ 24 * (b / 2 ^ 24 % 256) := rfl
  rw [h]
  omega

theorem header_readU32_12 (a b c d e f g : Nat) (rest : List Nat) :
    readU32 (write_uint32 a ++ (write_uint32 b ++ (write_uint32 c ++ (write_uint32 d ++
      (write_uint32 e ++ (write_uint32 f ++ (write_uint32 g ++ rest))))))) 12 =
      d % 2 ^ 32 := by
  have h : readU32 (write_uint32 a ++ (write_uint32 b ++ (write_uint32 c ++ (write_uint32 d ++
      (write_uint32 e ++ (write_uint32 f ++ (write_uint32 g ++ rest))))))) 12 =
      d % 256 + 256 * (d / 256 % 256) + 2 ^ 16 * (d / 2 ^ 16 % 256) +
        2 ^ 24 * (d / 2 ^ 24 % 256) := rfl
  rw [h]
  omega

theorem header_readU32_20 (a b c d e f g : Nat) (rest : List Nat) :
    readU32 (write_uint32 a ++ (write_uint32 b ++ (write_uint32 c ++ (write_uint32 d ++
      (write_uint32 e ++ (write_uint32 f ++ (write_uint32 g ++ rest))))))) 20 =
      f % 2 ^ 32 := by
  have h : readU32 (write_uint32 a ++ (write_uint32 b ++ (write_uint32 c ++ (write_uint32 d ++
      (write_uint32 e ++ (write_uint32 f ++ (write_uint32 g ++ rest))))))) 20 =
      f % 256 + 256 * (f / 256 % 256) + 2 ^ 16 * (f / 2 ^ 16 % 256) +
        2 ^ 24 * (f / 2 ^ 24 % 256) := rfl
  rw [h]
  omega

theorem header_length (a b c d e f g : Nat) (rest : List Nat) :
    (write_uint32 a ++ (write_uint32 b ++ (write_uint32 c ++ (write_uint32 d ++
      (write_uint32 e ++ (write_uint32 f ++ (write_uint32 g ++ rest))))))).length =
      28 + rest.length := by
  simp [write_uint32]
  omega

theorem header_drop28 (a b c d e f g : Nat) (rest : List Nat) :
    (write_uint32 a ++ (write_uint32 b ++ (write_uint32 c ++ (write_uint32 d ++
      (write_uint32 e ++ (write_uint32 f ++ (write_uint32 g ++ rest))))))).drop 28 =
      rest := rfl

/-- Deserializing a buffer produced by ast_serialize succeeds and is
marked valid (the stored checksum is the recomputed one), as long as the
body fits the u32 data_size field. -/
theorem ast_deserialize_of_serialize (T : Node) (M : Option ExecutionMetadata)
    (hL : (wcat (serialize_node T) (serialize_metadata M)).1.length < 2 ^ 32) :
    ast_deserialize (ast_serialize T M).1.data =
      some { data := (ast_serialize T M).1.data,
             size := (ast_serialize T M).1.data.length,
             checksum := calculate_crc32 (wcat (serialize_node T) (serialize_metadata M)).1,
             is_valid := true } := by
  have hdata : (ast_serialize T M).1.data =
      write_uint32 AST_MAGIC_NUMBER ++ (write_uint32 AST_VERSION ++
        (write_uint32 0 ++ (write_uint32 (wcat (serialize_node T) (serialize_metadata M)).1.length ++
          (write_uint32 (wcat (serialize_node T) (serialize_metadata M)).1.length ++
            (write_uint32 (calculate_crc32 (wcat (serialize_node T) (serialize_metadata M)).1) ++
              (write_uint32 0 ++ (wcat (serialize_node T) (serialize_metadata M)).1)))))) := rfl
  simp only [ast_deserialize, AST_HEADER_SIZE]
  rw [hdata]
  rw [header_readU32_0, header_readU32_4, header_readU32_12, header_readU32_20,
    header_length, header_drop28]
  rw [if_neg (by omega)]
  rw [if_neg (by norm_num [AST_MAGIC_NUMBER])]
  rw [if_neg (by norm_num [AST_VERSION])]
  rw [Nat.mod_eq_of_lt hL]
  rw [if_neg (by omega)]
  rw [List.take_length]
  rw [Nat.mod_eq_of_lt (calculate_crc32_lt _)]
  rw [beq_self_eq_true]

-- ===== C1: the serialize/deserialize/extract round trip =====

/-- Claim C1 (the code evaluated at the failing input): serializing an
AST with metadata whose target_index is a non-NULL 300-byte string and
deserializing the buffer succeeds with is_valid = true, and
ast_extract_metadata returns metadata — but not M: serialize_metadata
writes the string as length prefix first, then bytes, while
ast_extract_metadata reads the LAST two bytes of the data region as the
length prefix, so it misreads the trailer (here it reads the string's
final bytes 1,1 as the length 257 and recovers garbage fields). -/
theorem metadata_roundtrip_mismatch :
    (ast_deserialize (ast_serialize roundtripNode (some roundtripMeta)).1.data).map
        SerializedAST.is_valid = some true ∧
    ((ast_deserialize (ast_serialize roundtripNode (some roundtripMeta)).1.data).bind
        ast_extract_metadata).isSome = true ∧
    ((ast_deserialize (ast_serialize roundtripNode (some roundtripMeta)).1.data).bind
        ast_extract_metadata) ≠ some roundtripMeta := by
  have hL : (wcat (serialize_node roundtripNode)
      (serialize_metadata (some roundtripMeta))).1.length < 2 ^ 32 := by decide
  rw [ast_deserialize_of_serialize _ _ hL]
  refine ⟨rfl, by decide, by decide⟩

-- ===== C6: CRC32 sensitivity to a single byte change =====

theorem shiftRight_xor_distrib (a b k : Nat) :
    (a ^^^ b) >>> k = (a >>> k) ^^^ (b >>> k) := by
  apply Nat.eq_of_testBit_eq
  intro i
  simp [Nat.testBit_shiftRight, Nat.testBit_xor]

theorem xor_xor_pairs (a b c d : Nat) :
    (a ^^^ b) ^^^ (c ^^^ d) = (a ^^^ c) ^^^ (b ^^^ d) := by
  apply Nat.eq_of_testBit_eq
  intro i
  simp only [Nat.testBit_xor]
  cases a.testBit i <;> cases b.testBit i <;> cases c.testBit i <;> cases d.testBit i <;> rfl


/-- The table step is GF(2)-linear: it commutes with XOR. -/
theorem crcStep1_xor (a b : Nat) : crcStep1 (a ^^^ b) = crcStep1 a ^^^ crcStep1 b := by
  have ha2 : a &&& 1 = 0 ∨ a &&& 1 = 1 := by
    rw [Nat.and_one_is_mod]
    exact Nat.mod_two_eq_zero_or_one a
  have hb2 : b &&& 1 = 0 ∨ b &&& 1 = 1 := by
    rw [Nat.and_one_is_mod]
    exact Nat.mod_two_eq_zero_or_one b
  simp only [crcStep1, Nat.and_xor_distrib_right, shiftRight_xor_distrib]
  rcases ha2 with ha | ha <;> rcases hb2 with hb | hb <;> rw [ha, hb]
  · rw [if_neg (show ¬((0 : Nat) ^^^ 0 = 1) by decide), if_neg (show ¬((0 : Nat) = 1) by decide),
      if_neg (show ¬((0 : Nat) = 1) by decide)]
  · rw [if_pos (show (0 : Nat) ^^^ 1 = 1 by decide), if_neg (show ¬((0 : Nat) = 1) by decide),
      if_pos (show (1 : Nat) = 1 by decide), ← Nat.xor_assoc, ← Nat.xor_assoc,
      Nat.xor_comm 0xEDB88320 (a >>> 1)]
  · rw [if_pos (show (1 : Nat) ^^^ 0 = 1 by decide), if_pos (show (1 : Nat) = 1 by decide),
      if_neg (show ¬((0 : Nat) = 1) by decide), ← Nat.xor_assoc]
  · rw [if_neg (show ¬((1 : Nat) ^^^ 1 = 1) by decide), if_pos (show (1 : Nat) = 1 by decide),
      if_pos (show (1 : Nat) = 1 by decide), xor_xor_pairs, Nat.xor_self, Nat.zero_xor]

theorem crc32_table_xor (a b : Nat) :
    crc32_table (a ^^^ b) = crc32_table a ^^^ crc32_table b := by
  simp [crc32_table, crcStep1_xor]

theorem crc32_table_zero : crc32_table 0 = 0 := by decide

/-- Every table entry of a nonzero byte index has a set bit in its top
byte (checked for all 255 nonzero byte values). -/
theorem crc32_table_top (i : Nat) (h : i < 256) (hz : i ≠ 0) :
    2 ^ 24 ≤ crc32_table i := by
  revert i
  decide

theorem and_255_eq_mod (n : Nat) : n &&& 255 = n % 256 := by
  apply Nat.eq_of_testBit_eq
  intro i
  rw [Nat.testBit_and, show (255 : Nat) = 2 ^ 8 - 1 from rfl,
    Nat.testBit_two_pow_sub_one, show (256 : Nat) = 2 ^ 8 from rfl,
    Nat.testBit_mod_two_pow, Bool.and_comm]

/-- The XOR of two updates on the same byte depends only on the XOR of
the states. -/
theorem crc32Update_xor_state (c₁ c₂ b : Nat) :
    crc32Update c₁ b ^^^ crc32Update c₂ b =
      crc32_table ((c₁ ^^^ c₂) &&& 255) ^^^ ((c₁ ^^^ c₂) >>> 8) := by
  simp only [crc32Update]
  rw [xor_xor_pairs, ← crc32_table_xor, ← shiftRight_xor_distrib,
    ← Nat.and_xor_distrib_right, xor_xor_pairs, Nat.xor_self, Nat.xor_zero]

/-- The XOR of two updates on the same state depends only on the XOR of
the bytes. -/
theorem crc32Update_xor_byte (c b₁ b₂ : Nat) :
    crc32Update c b₁ ^^^ crc32Update c b₂ = crc32_table ((b₁ ^^^ b₂) &&& 255) := by
  simp only [crc32Update]
  rw [xor_xor_pairs, ← crc32_table_xor, Nat.xor_self, Nat.xor_zero,
    ← Nat.and_xor_distrib_right, xor_xor_pairs, Nat.xor_self, Nat.zero_xor]

/-- A nonzero state difference stays nonzero through one update step. -/
theorem crc32_diff_step_ne (Δ : Nat) (h32 : Δ < 2 ^ 32) (hnz : Δ ≠ 0) :
    crc32_table (Δ &&& 255) ^^^ (Δ >>> 8) ≠ 0 := by
  intro heq
  have heq2 : crc32_table (Δ &&& 255) = Δ >>> 8 := Nat.xor_eq_zero.1 heq
  by_cases hz : Δ &&& 255 = 0
  · rw [hz, crc32_table_zero] at heq2
    rw [and_255_eq_mod] at hz
    rw [Nat.shiftRight_eq_div_pow, show (2 : Nat) ^ 8 = 256 from rfl] at heq2
    omega
  · have hlt : Δ &&& 255 < 256 := Nat.lt_of_le_of_lt Nat.and_le_right (by norm_num)
    have htop := crc32_table_top _ hlt hz
    have hsmall : Δ >>> 8 < 2 ^ 24 := by
      rw [Nat.shiftRight_eq_div_pow]
      rw [Nat.div_lt_iff_lt_mul (by norm_num : 0 < 2 ^ 8)]
      calc Δ < 2 ^ 32 := h32
        _ = 2 ^ 24 * 2 ^ 8 := by norm_num
    rw [heq2] at htop
    exact absurd htop (Nat.not_le.2 hsmall)

/-- Distinct states below 2^32 stay distinct through a fold of updates
over the same byte list. -/
theorem crc_foldl_ne (suf : List Nat) : ∀ c₁ c₂ : Nat, c₁ < 2 ^ 32 → c₂ < 2 ^ 32 →
    c₁ ≠ c₂ → suf.foldl crc32Update c₁ ≠ suf.foldl crc32Update c₂ := by
  induction suf with
  | nil => exact fun _ _ _ _ h => h
  | cons b rest ih =>
    intro c₁ c₂ h1 h2 hne
    rw [List.foldl_cons, List.foldl_cons]
    apply ih _ _ (crc32Update_lt b h1) (crc32Update_lt b h2)
    intro heq
    have h0 : crc32Update c₁ b ^^^ crc32Update c₂ b = 0 := by rw [heq, Nat.xor_self]
    rw [crc32Update_xor_state] at h0
    exact crc32_diff_step_ne (c₁ ^^^ c₂) (Nat.xor_lt_two_pow h1 h2)
      (fun hzz => hne (Nat.xor_eq_zero.1 hzz)) h0

/-- Changing one byte (to any different byte value) always changes the
CRC32 of the list. -/
theorem crc32_single_byte_change (pre suf : List Nat) (b b' : Nat)
    (hb : b < 256) (hb' : b' < 256) (hne : b ≠ b') :
    calculate_crc32 (pre ++ b :: suf) ≠ calculate_crc32 (pre ++ b' :: suf) := by
  rw [calculate_crc32, calculate_crc32, List.foldl_append, List.foldl_append,
    List.foldl_cons, List.foldl_cons]
  have hc0 : pre.foldl crc32Update 0xFFFFFFFF < 2 ^ 32 :=
    crc_foldl_lt pre 0xFFFFFFFF (by norm_num)
  intro heq
  have heq' : suf.foldl crc32Update (crc32Update (pre.foldl crc32Update 0xFFFFFFFF) b) =
      suf.foldl crc32Update (crc32Update (pre.foldl crc32Update 0xFFFFFFFF) b') := by
    have h2 := congrArg (· ^^^ 0xFFFFFFFF) heq
    simpa [Nat.xor_assoc, Nat.xor_self, Nat.xor_zero] using h2
  refine crc_foldl_ne suf _ _ (crc32Update_lt _ hc0) (crc32Update_lt _ hc0) ?_ heq'
  intro hupd
  have h0 : crc32Update (pre.foldl crc32Update 0xFFFFFFFF) b ^^^
      crc32Update (pre.foldl crc32Update 0xFFFFFFFF) b' = 0 := by rw [hupd, Nat.xor_self]
  rw [crc32Update_xor_byte] at h0
  have hbb : b ^^^ b' < 256 := by
    have h8 := Nat.xor_lt_two_pow (show b < 2 ^ 8 by omega) (show b' < 2 ^ 8 by omega)
    omega
  have hδ : (b ^^^ b') &&& 255 = b ^^^ b' := by
    rw [and_255_eq_mod]
    exact Nat.mod_eq_of_lt hbb
  rw [hδ] at h0
  have htop := crc32_table_top (b ^^^ b') hbb (fun hzz => hne (Nat.xor_eq_zero.1 hzz))
  omega

-- ===== List surgery helpers for the modified serialized buffer =====

theorem readU8_set_ne (l : List Nat) (n a p : Nat) (h : n ≠ p) :
    readU8 (l.set n a) p = readU8 l p := by
  rw [readU8, readU8, List.getD_eq_getElem?_getD, List.getD_eq_getElem?_getD,
    List.getElem?_set_ne h]

theorem readU32_set_lt (l : List Nat) (n a p : Nat) (h : p + 3 < n) :
    readU32 (l.set n a) p = readU32 l p := by
  rw [readU32, readU32, readU8_set_ne _ _ _ _ (by omega), readU8_set_ne _ _ _ _ (by omega),
    readU8_set_ne _ _ _ _ (by omega), readU8_set_ne _ _ _ _ (by omega)]

theorem drop_set_sub (l : List Nat) (m n a : Nat) (h : m ≤ n) :
    (l.set n a).drop m = (l.drop m).set (n - m) a := by
  apply List.ext_getElem?
  intro j
  rw [List.getElem?_drop, List.getElem?_set, List.getElem?_set, List.getElem?_drop,
    List.length_drop]
  split_ifs <;> first | rfl | exact (by omega : False).elim

/-- Claim C6: for every buffer produced by ast_serialize, changing any
single byte of the data region (at offset i, to a different byte value
b') makes ast_verify_checksum return false — always, because the
recomputed reflected CRC-32 (polynomial 0xEDB88320, initial/final XOR
0xFFFFFFFF) over the modified data region provably differs from the
stored checksum.  The byte-range hypotheses model the C buffers, whose
cells are single bytes. -/
theorem ast_verify_checksum_byte_flip (T : Node) (M : Option ExecutionMetadata)
    (i b' : Nat)
    (hL : (wcat (serialize_node T) (serialize_metadata M)).1.length < 2 ^ 32)
    (hi : i < (wcat (serialize_node T) (serialize_metadata M)).1.length)
    (horig : (wcat (serialize_node T) (serialize_metadata M)).1.getD i 0 < 256)
    (hb' : b' < 256)
    (hne : b' ≠ (wcat (serialize_node T) (serialize_metadata M)).1.getD i 0) :
    ast_verify_checksum
      { (ast_serialize T M).1 with
        data := (ast_serialize T M).1.data.set (28 + i) b' } = false := by
  have hdata : (ast_serialize T M).1.data =
      write_uint32 AST_MAGIC_NUMBER ++ (write_uint32 AST_VERSION ++
        (write_uint32 0 ++ (write_uint32 (wcat (serialize_node T) (serialize_metadata M)).1.length ++
          (write_uint32 (wcat (serialize_node T) (serialize_metadata M)).1.length ++
            (write_uint32 (calculate_crc32 (wcat (serialize_node T) (serialize_metadata M)).1) ++
              (write_uint32 0 ++ (wcat (serialize_node T) (serialize_metadata M)).1)))))) := rfl
  set body := (wcat (serialize_node T) (serialize_metadata M)).1 with hbody_def
  set D := write_uint32 AST_MAGIC_NUMBER ++ (write_uint32 AST_VERSION ++
    (write_uint32 0 ++ (write_uint32 body.length ++ (write_uint32 body.length ++
      (write_uint32 (calculate_crc32 body) ++ (write_uint32 0 ++ body)))))) with hD_def
  have hsize : (ast_serialize T M).1.size = 28 + body.length := by
    rw [show (ast_serialize T M).1.size = (ast_serialize T M).1.data.length from rfl,
      hdata, hD_def, header_length]
  have h12 : readU32 (D.set (28 + i) b') 12 = body.length := by
    rw [readU32_set_lt D (28 + i) b' 12 (by omega), hD_def, header_readU32_12,
      Nat.mod_eq_of_lt hL]
  have h20 : readU32 (D.set (28 + i) b') 20 = calculate_crc32 body := by
    rw [readU32_set_lt D (28 + i) b' 20 (by omega), hD_def, header_readU32_20,
      Nat.mod_eq_of_lt (calculate_crc32_lt _)]
  have hdrop : (D.set (28 + i) b').drop 28 = body.set i b' := by
    rw [drop_set_sub D 28 (28 + i) b' (by omega), hD_def, header_drop28,
      show 28 + i - 28 = i from by omega]
  simp only [ast_verify_checksum, AST_HEADER_SIZE, hdata]
  rw [hsize, if_neg (Nat.not_lt.2 (Nat.le_add_right 28 body.length)), h12, h20, hdrop]
  rw [show body.length = (body.set i b').length from by simp, List.take_length]
  rw [List.set_eq_take_append_cons_drop, if_pos hi]
  refine beq_eq_false_iff_ne.2 ?_
  have hbody2 : body.take i ++ body.getD i 0 :: body.drop (i + 1) = body := by
    rw [List.getD_eq_getElem?_getD, List.getElem?_eq_getElem hi, Option.getD_some,
      ← List.drop_eq_getElem_cons hi, List.take_append_drop]
  have hmain := crc32_single_byte_change (body.take i) (body.drop (i + 1)) b'
    (body.getD i 0) hb' horig hne
  rw [hbody2] at hmain
  exact hmain

/-- Witness for C6: serializing a LIMIT node with no metadata and
flipping the first body byte (the node tag, 10) to 11 makes
ast_verify_checksum reject the buffer. -/
theorem ast_verify_checksum_byte_flip_witness :
    (wcat (serialize_node (Node.limit 1 2 3)) (serialize_metadata none)).1.length < 2 ^ 32 ∧
    0 < (wcat (serialize_node (Node.limit 1 2 3)) (serialize_metadata none)).1.length ∧
    (wcat (serialize_node (Node.limit 1 2 3)) (serialize_metadata none)).1.getD 0 0 < 256 ∧
    (11 : Nat) < 256 ∧
    (11 : Nat) ≠ (wcat (serialize_node (Node.limit 1 2 3)) (serialize_metadata none)).1.getD 0 0 ∧
    ast_verify_checksum
      { (ast_serialize (Node.limit 1 2 3) none).1 with
        data := (ast_serialize (Node.limit 1 2 3) none).1.data.set (28 + 0) 11 } = false :=
  ⟨by decide, by decide, by decide, by decide, by decide,
    ast_verify_checksum_byte_flip (Node.limit 1 2 3) none 0 11 (by decide) (by decide)
      (by decide) (by decide) (by decide)⟩

end NSQL
